import Mathlib

/-!
# Verification of GoJSONNLP (package `jsonnlp`) against its specification

Shallow embedding of the Go package `jsonnlp` (file `jsonnlp.go`, schema
version 0.8, plus the version-0.8.3 `Triple` record from the later snapshot
of the same repository).

The package is a pure codec: Go struct declarations with `encoding/json`
field tags, and three functions `FromString`, `FromFile`, `GetJSON` that
delegate to `encoding/json`.  The embedding therefore consists of

* a model of JSON values (`JSON`), where a serialized text is represented by
  its parse result: `WireText := Option JSON`, with `none` standing for a
  syntactically invalid text (Go's `json.Unmarshal` validates the whole
  input before decoding, so on a syntax error the receiver is untouched);
* Go `float64` modelled as `GoFloat` — an exact rational or one of the
  non-finite values `NaN`/`+Inf`/`-Inf` which `json.Marshal` cannot encode
  (number formatting of the textual form is abstracted away: rationals are
  carried exactly, which matches Go's exact round-trip of `float64` through
  its shortest decimal representation);
* one Lean structure per Go struct, field names as in the source (`Type` is
  a Lean keyword, rendered `Typ`), and per-struct `marshal…`/`unmarshal…`
  functions implementing the `encoding/json` semantics the tags select:
  - `omitempty` omits a field whose value is the empty string, zero number,
    false, or empty list; `omitempty` has no effect on struct-typed fields,
    which are always emitted;
  - a field without `omitempty` is always emitted; a slice field without
    `omitempty` holding a nil/empty slice is emitted as `null` (Go's zero
    value for a slice is nil, which marshals as `null`; the nil/empty
    distinction is not observable elsewhere and is conflated here);
  - decoding merges into the existing receiver: keys are processed in input
    order (for a repeated key the last occurrence wins), a key whose value
    has the wrong type for its field leaves the field unchanged (Go records
    an `UnmarshalTypeError`, skips the value and continues; the callers in
    this package discard the error), `null` is a no-op except into a slice
    field, which it sets to nil; absent keys leave the receiver's fields
    unchanged; arrays decode element-wise into the existing elements and
    the result is truncated/extended to the input length;
  - two struct fields carrying an identical tag name form a conflict set
    and are dropped by `encoding/json` on both encode and decode ("if there
    are multiple fields with the same name, all are ignored"); in schema
    v0.8 this hits `frameID`, `wordNetID` and `verbNetID`, each declared on
    two distinct `TokenList` fields.
-/

namespace GoJsonNLP

/-- Model of a Go `float64` value: an exact finite rational, or one of the
non-finite values that `encoding/json` refuses to marshal. -/
inductive GoFloat where
  | finite (q : ℚ)
  | nan
  | posInf
  | negInf
deriving DecidableEq, Repr

/-- A non-finite `float64` (`json.Marshal` fails on these with an
`UnsupportedValueError`). -/
def GoFloat.bad : GoFloat → Bool
  | .finite _ => false
  | _ => true

/-- Model of a JSON value, i.e. of a serialized text up to concrete syntax.
`int` is a number in integer format (what Go emits for integer fields),
`float` a number in floating format; a Go `float64` field accepts either. -/
inductive JSON where
  | null
  | bool (b : Bool)
  | int (n : Int)
  | float (f : GoFloat)
  | str (s : String)
  | arr (elems : List JSON)
  | obj (fields : List (String × JSON))
deriving Repr

/-- A serialized JSON-NLP text, represented by its parse: `none` is a
syntactically invalid text, `some j` a well-formed text parsing to `j`. -/
def WireText : Type := Option JSON

/-- First value bound to key `name` in a key/value list. -/
def findKey (kvs : List (String × JSON)) (name : String) : Option JSON :=
  match kvs with
  | [] => none
  | kv :: rest => if kv.1 = name then some kv.2 else findKey rest name

/-- First value bound to key `name` in a JSON object (the encoder never
emits a duplicate key, so this is the observation used to state the
field-presence laws). -/
def JSON.getKey (j : JSON) (name : String) : Option JSON :=
  match j with
  | .obj kvs => findKey kvs name
  | _ => none

/-! ## Decoding primitives

Each decoder has type `JSON → α → α`: it receives the JSON value bound to
the field's key and the field's current value, and returns the new value,
implementing Go's merge/skip semantics described in the header. -/

/-- Decode into a Go `string` field. -/
def decStr : JSON → String → String
  | .str s, _ => s
  | _, old => old

/-- Decode into a Go `int` field (only an integer-format number literal is
accepted, `strconv.ParseInt` rejects floating literals). -/
def decInt : JSON → Int → Int
  | .int n, _ => n
  | _, old => old

/-- Decode into a Go `bool` field. -/
def decBool : JSON → Bool → Bool
  | .bool b, _ => b
  | _, old => old

/-- Decode into a Go `float64` field (any number literal is accepted). -/
def decFloat : JSON → GoFloat → GoFloat
  | .int n, _ => .finite (n : ℚ)
  | .float f, _ => f
  | _, old => old

/-- Element-wise decoding of a JSON array into an existing Go slice:
element `i` is decoded into the existing element `i` when there is one and
into the element type's zero value `z` otherwise, and the result is
truncated to the length of the JSON array. -/
def mergeList (dec : JSON → α → α) (z : α) : List α → List JSON → List α
  | _, [] => []
  | [], j :: js => dec j z :: mergeList dec z [] js
  | x :: xs, j :: js => dec j x :: mergeList dec z xs js

/-- Decode into a Go slice field: `null` sets the slice to nil, an array
merges element-wise, any other value is a type error leaving the field
unchanged. -/
def decList (dec : JSON → α → α) (z : α) : JSON → List α → List α
  | .null, _ => []
  | .arr js, old => mergeList dec z old js
  | _, old => old

/-- `encoding/json`'s character folding for key matching.  `Unmarshal`
"matches incoming object keys to … the struct field name or its tag,
preferring an exact match but also accepting a case-insensitive match":
ASCII letters are case-folded, and the decoder's fold functions
additionally accept the two Unicode runes whose case-folding reaches an
ASCII letter, Kelvin sign U+212A (folds to `k`) and long s U+017F (folds
to `s`); every other rune must match exactly. -/
def foldChar (c : Char) : Char :=
  if c.val = 0x212A then 'k' else if c.val = 0x17F then 's' else c.toLower

/-- Folded form of a wire key; two keys match in `encoding/json` exactly
when their folded forms are equal. -/
def foldName (s : String) : String :=
  String.mk (s.data.map foldChar)

/-- Decoding of one struct field: fold over the input object's key/value
pairs in order, updating the field on every key matching the field's tag
name (Go matches case-insensitively via `foldName`, processes keys in
input order, and the last matching occurrence wins) and ignoring every
other key.  Go prefers an exact match over a case-insensitive one, but in
this schema the folded tag names inside each struct are pairwise distinct,
so any input key matches at most one field and the preference is
immaterial. -/
def fieldFold (upd : JSON → α → α) (name : String) (kvs : List (String × JSON)) (old : α) : α :=
  kvs.foldl (fun acc kv => if foldName kv.1 = foldName name then upd kv.2 acc else acc) old

/-! ## Encoding primitives -/

/-- An `omitempty` key/value pair: emitted unless `empty` holds. -/
def omitKV (empty : Prop) [Decidable empty] (name : String) (v : JSON) : List (String × JSON) :=
  if empty then [] else [(name, v)]

/-- `omitempty` string field. -/
def omitStr (name : String) (s : String) : List (String × JSON) :=
  omitKV (s = "") name (.str s)

/-- `omitempty` int field. -/
def omitInt (name : String) (n : Int) : List (String × JSON) :=
  omitKV (n = 0) name (.int n)

/-- `omitempty` float64 field (omitted exactly when the value is `0.0`). -/
def omitFloat (name : String) (f : GoFloat) : List (String × JSON) :=
  omitKV (f = .finite 0) name (.float f)

/-- `omitempty` bool field. -/
def omitBool (name : String) (b : Bool) : List (String × JSON) :=
  omitKV (b = false) name (.bool b)

/-- `omitempty` slice field, `es` being the already-marshalled elements. -/
def omitList (name : String) (es : List JSON) : List (String × JSON) :=
  omitKV (es.isEmpty = true) name (.arr es)

/-- Required (no `omitempty`) key/value pair. -/
def reqKV (name : String) (v : JSON) : List (String × JSON) :=
  [(name, v)]

/-- Required slice field: a zero-valued (nil) slice marshals as `null`. -/
def reqList (name : String) (es : List JSON) : List (String × JSON) :=
  reqKV name (if es.isEmpty = true then JSON.null else .arr es)

/-! ## The version-0.8 data model (`jsonnlp.go`)

One structure per Go struct, fields in source order.  The Go field `Type`
is rendered `Typ` (`Type` is a Lean keyword); all other names are kept. -/

/-- Go struct `Meta` (corpus- and document-level Dublin Core metadata). -/
structure Meta where
  DCConformsTo : String  -- tag "DC.conformsTo"
  DCCreated : String     -- tag "DC.created"
  DCDate : String        -- tag "DC.date,omitempty"
  DCSource : String      -- tag "DC.source,omitempty"
  DCLanguage : String    -- tag "DC.language,omitempty"
  DCCreator : String     -- tag "DC.creator,omitempty"
  DCPublisher : String   -- tag "DC.publisher,omitempty"
  DCTitle : String       -- tag "DC.title,omitempty"
  DCDescription : String -- tag "DC.description,omitempty"
  DCIdentifier : String  -- tag "DC.identifier,omitempty"
deriving DecidableEq, Repr

/-- Go zero value of `Meta`. -/
def Meta.zero : Meta :=
  ⟨"", "", "", "", "", "", "", "", "", ""⟩

/-- Go struct `TokenFeatures` (all fields `omitempty`). -/
structure TokenFeatures where
  Overt : Bool
  Stop : Bool
  Alpha : Bool
  Number : Int
  Gender : String
  Person : Int
  Tense : String
  Perfect : Bool
  Continuous : Bool
  Case : String
  Human : Bool
  Animate : Bool
  Negated : Bool
  Countable : Bool
  Factive : Bool
  Counterfactive : Bool
  Irregular : Bool
  PhrasalVerb : Bool
  Mood : String
  Foreign : Bool
  SpaceAfter : Bool
deriving DecidableEq, Repr

/-- Go zero value of `TokenFeatures`. -/
def TokenFeatures.zero : TokenFeatures :=
  ⟨false, false, false, 0, "", 0, "", false, false, "", false, false, false,
   false, false, false, false, false, "", false, false⟩

/-- Go struct `TokenList` (one token), schema v0.8.  The three pairs
`FrameID`/`FrameIDProbability`, `WordNetID`/`WordNetIDProbability` and
`VerbNetID`/`VerbNetIDProbability` each carry the same tag name
(`frameID`, `wordNetID`, `verbNetID` respectively), so `encoding/json`
drops all six fields on both encode and decode. -/
structure TokenList where
  ID : Int                        -- tag "id"
  SentenceID : Int                -- tag "sentence_id"
  Text : String                   -- tag "text"
  Lemma : String                  -- tag "lemma,omitempty"
  XPoS : String                   -- tag "xpos,omitempty"
  XPoSProbability : GoFloat       -- tag "xpos_prob,omitempty"
  UPoS : String                   -- tag "upos,omitempty"
  UPoSProbability : GoFloat       -- tag "upos_prob,omitempty"
  EntityIOB : String              -- tag "entity_iob,omitempty"
  CharacterOffsetBegin : Int      -- tag "characterOffsetBegin,omitempty"
  CharacterOffsetEnd : Int        -- tag "characterOffsetEnd,omitempty"
  PropID : String                 -- tag "propID,omitempty"
  PropIDProbability : GoFloat     -- tag "propIDProbability,omitempty"
  FrameID : Int                   -- tag "frameID,omitempty"   (conflict)
  FrameIDProbability : GoFloat    -- tag "frameID,omitempty"   (conflict)
  WordNetID : Int                 -- tag "wordNetID,omitempty" (conflict)
  WordNetIDProbability : GoFloat  -- tag "wordNetID,omitempty" (conflict)
  VerbNetID : Int                 -- tag "verbNetID,omitempty" (conflict)
  VerbNetIDProbability : GoFloat  -- tag "verbNetID,omitempty" (conflict)
  Lang : String                   -- tag "lang,omitempty"
  Features : TokenFeatures        -- tag "features,omitempty" (struct: never omitted)
  Shape : String                  -- tag "shape,omitempty"
  Entity : String                 -- tag "entity,omitempty"
deriving DecidableEq, Repr

/-- Go zero value of `TokenList`. -/
def TokenList.zero : TokenList :=
  ⟨0, 0, "", "", "", .finite 0, "", .finite 0, "", 0, 0, "", .finite 0,
   0, .finite 0, 0, .finite 0, 0, .finite 0, "", TokenFeatures.zero, "", ""⟩

/-- Go struct `Sentence`. -/
structure Sentence where
  ID : Int                        -- tag "id"
  TokenFrom : Int                 -- tag "tokenFrom,omitempty"
  TokenTo : Int                   -- tag "tokenTo,omitempty"
  Tokens : List Int               -- tag "tokens,omitempty"
  Clauses : List Int              -- tag "clauses,omitempty"
  Typ : String                    -- Go field Type, tag "type,omitempty"
  Sentiment : String              -- tag "sentiment,omitempty"
  SentimentProbability : GoFloat  -- tag "sentimentProb,omitempty"
deriving DecidableEq, Repr

/-- Go zero value of `Sentence`. -/
def Sentence.zero : Sentence :=
  ⟨0, 0, 0, [], [], "", "", .finite 0⟩

/-- Go struct `Clause`. -/
structure Clause where
  ID : Int                        -- tag "id"
  SentenceID : Int                -- tag "sentenceID"
  TokenFrom : Int                 -- tag "tokenFrom,omitempty"
  TokenTo : Int                   -- tag "tokenTo,omitempty"
  Tokens : List Int               -- tag "tokens,omitempty"
  Main : Bool                     -- tag "main,omitempty"
  Governor : Int                  -- tag "gov,omitempty"
  Head : Int                      -- tag "head,omitempty"
  Negation : Bool                 -- tag "neg,omitempty"
  Tense : String                  -- tag "tense,omitempty"
  Voice : String                  -- tag "voice,omitempty"
  Mood : String                   -- tag "mood,omitempty"
  Sentiment : String              -- tag "sentiment,omitempty"
  SentimentProbability : GoFloat  -- tag "sentimentProb,omitempty"
deriving DecidableEq, Repr

/-- Go zero value of `Clause`. -/
def Clause.zero : Clause :=
  ⟨0, 0, 0, 0, [], false, 0, 0, false, "", "", "", "", .finite 0⟩

/-- Go struct `Dependency`. -/
structure Dependency where
  Label : String        -- tag "lab"
  Governor : Int        -- tag "gov"
  Dependent : Int       -- tag "dep"
  Probability : GoFloat -- tag "prob,omitempty"
deriving DecidableEq, Repr

/-- Go zero value of `Dependency`. -/
def Dependency.zero : Dependency :=
  ⟨"", 0, 0, .finite 0⟩

/-- Go struct `DependencyTree`. -/
structure DependencyTree where
  SentenceID : Int                -- tag "sentenceID"
  Style : String                  -- tag "style,omitempty"
  Dependencies : List Dependency  -- tag "dependencies,omitempty"
  Probability : GoFloat           -- tag "prob,omitempty"
deriving DecidableEq, Repr

/-- Go zero value of `DependencyTree`. -/
def DependencyTree.zero : DependencyTree :=
  ⟨0, "", [], .finite 0⟩

/-- Go struct `CoreferenceRepresentantive` (sic, source spelling). -/
structure CoreferenceRepresentantive where
  Tokens : List Int -- tag "tokens"
  Head : Int        -- tag "head,omitempty"
deriving DecidableEq, Repr

/-- Go zero value of `CoreferenceRepresentantive`. -/
def CoreferenceRepresentantive.zero : CoreferenceRepresentantive :=
  ⟨[], 0⟩

/-- Go struct `CoreferenceReferents`. -/
structure CoreferenceReferents where
  Tokens : List Int     -- tag "tokens"
  Head : Int            -- tag "head,omitempty"
  Probability : GoFloat -- tag "prob,omitempty"
deriving DecidableEq, Repr

/-- Go zero value of `CoreferenceReferents`. -/
def CoreferenceReferents.zero : CoreferenceReferents :=
  ⟨[], 0, .finite 0⟩

/-- Go struct `Coreference`. -/
structure Coreference where
  ID : Int                                    -- tag "id"
  Representative : CoreferenceRepresentantive -- tag "representative"
  Referents : List CoreferenceReferents       -- tag "referents"
deriving DecidableEq, Repr

/-- Go zero value of `Coreference`. -/
def Coreference.zero : Coreference :=
  ⟨0, CoreferenceRepresentantive.zero, []⟩

/-- Go struct `Scope`. -/
structure Scope where
  ID : Int              -- tag "id"
  Governor : List Int   -- tag "gov"
  Dependents : List Int -- tag "dep,omitempty"
  Terminals : List Int  -- tag "terminals,omitempty"
deriving DecidableEq, Repr

/-- Go zero value of `Scope`. -/
def Scope.zero : Scope :=
  ⟨0, [], [], []⟩

/-- Go struct `ConstituentParse`. -/
structure ConstituentParse where
  SentenceID : Int           -- tag "sentenceId"
  Typ : String               -- Go field Type, tag "type,omitempty"
  LabeledBracketing : String -- tag "labeledBracketing"
  Probability : GoFloat      -- tag "prob,omitempty"
  Scopes : List Scope        -- tag "scopes,omitempty"
deriving DecidableEq, Repr

/-- Go zero value of `ConstituentParse`. -/
def ConstituentParse.zero : ConstituentParse :=
  ⟨0, "", "", .finite 0, []⟩

/-- Go struct `Expression`. -/
structure Expression where
  ID : Int              -- tag "id"
  Typ : String          -- Go field Type, tag "type,omitempty"
  Head : Int            -- tag "head,omitempty"
  Dependency : String   -- tag "dependency,omitempty"
  TokenFrom : Int       -- tag "tokenFrom,omitempty"
  TokenTo : Int         -- tag "tokenTo,omitempty"
  Tokens : List Int     -- tag "tokens"
  Probability : GoFloat -- tag "prob,omitempty"
deriving DecidableEq, Repr

/-- Go zero value of `Expression`. -/
def Expression.zero : Expression :=
  ⟨0, "", 0, "", 0, 0, [], .finite 0⟩

/-- Go struct `Paragraph`. -/
structure Paragraph where
  ID : Int             -- tag "id"
  TokenFrom : Int      -- tag "tokenFrom,omitempty"
  TokenTo : Int        -- tag "tokenTo,omitempty"
  Tokens : List Int    -- tag "tokens,omitempty"
  Sentences : List Int -- tag "sentences,omitempty"
deriving DecidableEq, Repr

/-- Go zero value of `Paragraph`. -/
def Paragraph.zero : Paragraph :=
  ⟨0, 0, 0, [], []⟩

/-- Go struct `Attribute`. -/
structure Attribute where
  Label : String -- tag "lab"
  Value : String -- tag "val"
deriving DecidableEq, Repr

/-- Go zero value of `Attribute`. -/
def Attribute.zero : Attribute :=
  ⟨"", ""⟩

/-- Go struct `Entity` (schema v0.8). -/
structure Entity where
  ID : Int                        -- tag "id"
  Label : String                  -- tag "label"
  Typ : String                    -- Go field Type, tag "type"
  Sentiment : String              -- tag "sentiment,omitempty"
  SentimentProbability : GoFloat  -- tag "sentimentProb,omitempty"
  Attributes : List Attribute     -- tag "attributes"
deriving DecidableEq, Repr

/-- Go zero value of `Entity`. -/
def Entity.zero : Entity :=
  ⟨0, "", "", "", .finite 0, []⟩

/-- Go struct `Relation` (schema v0.8). -/
structure Relation where
  ID : Int                        -- tag "id"
  Label : String                  -- tag "label"
  Typ : String                    -- Go field Type, tag "type"
  Sentiment : String              -- tag "sentiment,omitempty"
  SentimentProbability : GoFloat  -- tag "sentimentProb,omitempty"
  Attributes : List Attribute     -- tag "attributes"
deriving DecidableEq, Repr

/-- Go zero value of `Relation`. -/
def Relation.zero : Relation :=
  ⟨0, "", "", "", .finite 0, []⟩

/-- Go struct `Triple` (schema v0.8: no `ID` field, scalar `ClauseID` and
`SentenceID`). -/
structure Triple where
  FromEntity : Int       -- tag "fromEntity"
  ToEntity : Int         -- tag "toEntity"
  Relation : Int         -- tag "rel"
  ClauseID : Int         -- tag "clauseID,omitempty"
  SentenceID : Int       -- tag "sentenceID,omitempty"
  Directional : Bool     -- tag "directional,omitempty"
  EventID : Int          -- tag "eventID,omitempty"
  TemporalSequence : Int -- tag "tempSeq,omitempty"
  Probability : GoFloat  -- tag "prob,omitempty"
  Syntactic : Bool       -- tag "syntactic,omitempty"
  Implied : Bool         -- tag "implied,omitempty"
  Presupposed : Bool     -- tag "presupposed,omitempty"
deriving DecidableEq, Repr

/-- Go zero value of `Triple`. -/
def Triple.zero : Triple :=
  ⟨0, 0, 0, 0, 0, false, 0, 0, .finite 0, false, false, false⟩

/-- Go struct `Document`. -/
structure Document where
  MetaDocument : Meta                   -- tag "meta"
  ID : Int                              -- tag "id"
  TokenList : List TokenList            -- tag "tokenList,omitempty"
  Clauses : List Clause                 -- tag "clauses,omitempty"
  Sentences : List Sentence             -- tag "sentences,omitempty"
  Paragraphs : List Paragraph           -- tag "paragraphs,omitempty"
  DependencyTrees : List DependencyTree -- tag "dependencyTrees,omitempty"
  Coreferences : List Coreference       -- tag "coreferences,omitempty"
  Constituents : List ConstituentParse  -- tag "constituents,omitempty"
  Expressions : List Expression         -- tag "expressions,omitempty"
  Entities : List Entity                -- tag "entities,omitempty"
  Relations : List Relation             -- tag "relations,omitempty"
  Triples : List Triple                 -- tag "triples,omitempty"
deriving DecidableEq, Repr

/-- Go zero value of `Document`. -/
def Document.zero : Document :=
  ⟨Meta.zero, 0, [], [], [], [], [], [], [], [], [], [], []⟩

/-- Go struct `JSONNLP`, the root Corpus value. -/
structure JSONNLP where
  MetaData : Meta           -- tag "meta,omitempty" (struct: never omitted)
  Documents : List Document -- tag "documents,omitempty"
deriving DecidableEq, Repr

/-- Go zero value of `JSONNLP` (the freshly constructed empty Corpus). -/
def JSONNLP.zero : JSONNLP :=
  ⟨Meta.zero, []⟩

/-! ## Encoding (the struct side of `json.Marshal`)

One function per struct, emitting the surviving fields in declaration
order with the tag-selected treatment. -/

/-- Encode a `Meta` record. -/
def marshalMeta (m : Meta) : JSON :=
  .obj (reqKV "DC.conformsTo" (.str m.DCConformsTo)
    ++ reqKV "DC.created" (.str m.DCCreated)
    ++ omitStr "DC.date" m.DCDate
    ++ omitStr "DC.source" m.DCSource
    ++ omitStr "DC.language" m.DCLanguage
    ++ omitStr "DC.creator" m.DCCreator
    ++ omitStr "DC.publisher" m.DCPublisher
    ++ omitStr "DC.title" m.DCTitle
    ++ omitStr "DC.description" m.DCDescription
    ++ omitStr "DC.identifier" m.DCIdentifier)

/-- Encode a `TokenFeatures` record. -/
def marshalTokenFeatures (f : TokenFeatures) : JSON :=
  .obj (omitBool "overt" f.Overt
    ++ omitBool "stop" f.Stop
    ++ omitBool "alpha" f.Alpha
    ++ omitInt "number" f.Number
    ++ omitStr "gender" f.Gender
    ++ omitInt "person" f.Person
    ++ omitStr "tense" f.Tense
    ++ omitBool "perfect" f.Perfect
    ++ omitBool "continuous" f.Continuous
    ++ omitStr "case" f.Case
    ++ omitBool "human" f.Human
    ++ omitBool "animate" f.Animate
    ++ omitBool "negated" f.Negated
    ++ omitBool "countable" f.Countable
    ++ omitBool "factive" f.Factive
    ++ omitBool "counterfactive" f.Counterfactive
    ++ omitBool "irregular" f.Irregular
    ++ omitBool "phrasalVerb" f.PhrasalVerb
    ++ omitStr "mood" f.Mood
    ++ omitBool "foreign" f.Foreign
    ++ omitBool "spaceAfter" f.SpaceAfter)

/-- Encode a `TokenList` record (schema v0.8).  The six fields of the three
tag-conflict pairs (`frameID`, `wordNetID`, `verbNetID`) are excluded by
`encoding/json` and never emitted. -/
def marshalTokenList (t : TokenList) : JSON :=
  .obj (reqKV "id" (.int t.ID)
    ++ reqKV "sentence_id" (.int t.SentenceID)
    ++ reqKV "text" (.str t.Text)
    ++ omitStr "lemma" t.Lemma
    ++ omitStr "xpos" t.XPoS
    ++ omitFloat "xpos_prob" t.XPoSProbability
    ++ omitStr "upos" t.UPoS
    ++ omitFloat "upos_prob" t.UPoSProbability
    ++ omitStr "entity_iob" t.EntityIOB
    ++ omitInt "characterOffsetBegin" t.CharacterOffsetBegin
    ++ omitInt "characterOffsetEnd" t.CharacterOffsetEnd
    ++ omitStr "propID" t.PropID
    ++ omitFloat "propIDProbability" t.PropIDProbability
    ++ omitStr "lang" t.Lang
    ++ reqKV "features" (marshalTokenFeatures t.Features)
    ++ omitStr "shape" t.Shape
    ++ omitStr "entity" t.Entity)

/-- Encode a `Sentence` record. -/
def marshalSentence (s : Sentence) : JSON :=
  .obj (reqKV "id" (.int s.ID)
    ++ omitInt "tokenFrom" s.TokenFrom
    ++ omitInt "tokenTo" s.TokenTo
    ++ omitList "tokens" (s.Tokens.map JSON.int)
    ++ omitList "clauses" (s.Clauses.map JSON.int)
    ++ omitStr "type" s.Typ
    ++ omitStr "sentiment" s.Sentiment
    ++ omitFloat "sentimentProb" s.SentimentProbability)

/-- Encode a `Clause` record. -/
def marshalClause (c : Clause) : JSON :=
  .obj (reqKV "id" (.int c.ID)
    ++ reqKV "sentenceID" (.int c.SentenceID)
    ++ omitInt "tokenFrom" c.TokenFrom
    ++ omitInt "tokenTo" c.TokenTo
    ++ omitList "tokens" (c.Tokens.map JSON.int)
    ++ omitBool "main" c.Main
    ++ omitInt "gov" c.Governor
    ++ omitInt "head" c.Head
    ++ omitBool "neg" c.Negation
    ++ omitStr "tense" c.Tense
    ++ omitStr "voice" c.Voice
    ++ omitStr "mood" c.Mood
    ++ omitStr "sentiment" c.Sentiment
    ++ omitFloat "sentimentProb" c.SentimentProbability)

/-- Encode a `Dependency` record. -/
def marshalDependency (d : Dependency) : JSON :=
  .obj (reqKV "lab" (.str d.Label)
    ++ reqKV "gov" (.int d.Governor)
    ++ reqKV "dep" (.int d.Dependent)
    ++ omitFloat "prob" d.Probability)

/-- Encode a `DependencyTree` record. -/
def marshalDependencyTree (t : DependencyTree) : JSON :=
  .obj (reqKV "sentenceID" (.int t.SentenceID)
    ++ omitStr "style" t.Style
    ++ omitList "dependencies" (t.Dependencies.map marshalDependency)
    ++ omitFloat "prob" t.Probability)

/-- Encode a `CoreferenceRepresentantive` record. -/
def marshalCoreferenceRepresentantive (r : CoreferenceRepresentantive) : JSON :=
  .obj (reqList "tokens" (r.Tokens.map JSON.int)
    ++ omitInt "head" r.Head)

/-- Encode a `CoreferenceReferents` record. -/
def marshalCoreferenceReferents (r : CoreferenceReferents) : JSON :=
  .obj (reqList "tokens" (r.Tokens.map JSON.int)
    ++ omitInt "head" r.Head
    ++ omitFloat "prob" r.Probability)

/-- Encode a `Coreference` record. -/
def marshalCoreference (c : Coreference) : JSON :=
  .obj (reqKV "id" (.int c.ID)
    ++ reqKV "representative" (marshalCoreferenceRepresentantive c.Representative)
    ++ reqList "referents" (c.Referents.map marshalCoreferenceReferents))

/-- Encode a `Scope` record. -/
def marshalScope (s : Scope) : JSON :=
  .obj (reqKV "id" (.int s.ID)
    ++ reqList "gov" (s.Governor.map JSON.int)
    ++ omitList "dep" (s.Dependents.map JSON.int)
    ++ omitList "terminals" (s.Terminals.map JSON.int))

/-- Encode a `ConstituentParse` record. -/
def marshalConstituentParse (c : ConstituentParse) : JSON :=
  .obj (reqKV "sentenceId" (.int c.SentenceID)
    ++ omitStr "type" c.Typ
    ++ reqKV "labeledBracketing" (.str c.LabeledBracketing)
    ++ omitFloat "prob" c.Probability
    ++ omitList "scopes" (c.Scopes.map marshalScope))

/-- Encode an `Expression` record. -/
def marshalExpression (e : Expression) : JSON :=
  .obj (reqKV "id" (.int e.ID)
    ++ omitStr "type" e.Typ
    ++ omitInt "head" e.Head
    ++ omitStr "dependency" e.Dependency
    ++ omitInt "tokenFrom" e.TokenFrom
    ++ omitInt "tokenTo" e.TokenTo
    ++ reqList "tokens" (e.Tokens.map JSON.int)
    ++ omitFloat "prob" e.Probability)

/-- Encode a `Paragraph` record. -/
def marshalParagraph (p : Paragraph) : JSON :=
  .obj (reqKV "id" (.int p.ID)
    ++ omitInt "tokenFrom" p.TokenFrom
    ++ omitInt "tokenTo" p.TokenTo
    ++ omitList "tokens" (p.Tokens.map JSON.int)
    ++ omitList "sentences" (p.Sentences.map JSON.int))

/-- Encode an `Attribute` record. -/
def marshalAttribute (a : Attribute) : JSON :=
  .obj (reqKV "lab" (.str a.Label)
    ++ reqKV "val" (.str a.Value))

/-- Encode an `Entity` record (schema v0.8). -/
def marshalEntity (e : Entity) : JSON :=
  .obj (reqKV "id" (.int e.ID)
    ++ reqKV "label" (.str e.Label)
    ++ reqKV "type" (.str e.Typ)
    ++ omitStr "sentiment" e.Sentiment
    ++ omitFloat "sentimentProb" e.SentimentProbability
    ++ reqList "attributes" (e.Attributes.map marshalAttribute))

/-- Encode a `Relation` record (schema v0.8). -/
def marshalRelation (r : Relation) : JSON :=
  .obj (reqKV "id" (.int r.ID)
    ++ reqKV "label" (.str r.Label)
    ++ reqKV "type" (.str r.Typ)
    ++ omitStr "sentiment" r.Sentiment
    ++ omitFloat "sentimentProb" r.SentimentProbability
    ++ reqList "attributes" (r.Attributes.map marshalAttribute))

/-- Encode a `Triple` record (schema v0.8). -/
def marshalTriple (t : Triple) : JSON :=
  .obj (reqKV "fromEntity" (.int t.FromEntity)
    ++ reqKV "toEntity" (.int t.ToEntity)
    ++ reqKV "rel" (.int t.Relation)
    ++ omitInt "clauseID" t.ClauseID
    ++ omitInt "sentenceID" t.SentenceID
    ++ omitBool "directional" t.Directional
    ++ omitInt "eventID" t.EventID
    ++ omitInt "tempSeq" t.TemporalSequence
    ++ omitFloat "prob" t.Probability
    ++ omitBool "syntactic" t.Syntactic
    ++ omitBool "implied" t.Implied
    ++ omitBool "presupposed" t.Presupposed)

/-- Encode a `Document` record. -/
def marshalDocument (d : Document) : JSON :=
  .obj (reqKV "meta" (marshalMeta d.MetaDocument)
    ++ reqKV "id" (.int d.ID)
    ++ omitList "tokenList" (d.TokenList.map marshalTokenList)
    ++ omitList "clauses" (d.Clauses.map marshalClause)
    ++ omitList "sentences" (d.Sentences.map marshalSentence)
    ++ omitList "paragraphs" (d.Paragraphs.map marshalParagraph)
    ++ omitList "dependencyTrees" (d.DependencyTrees.map marshalDependencyTree)
    ++ omitList "coreferences" (d.Coreferences.map marshalCoreference)
    ++ omitList "constituents" (d.Constituents.map marshalConstituentParse)
    ++ omitList "expressions" (d.Expressions.map marshalExpression)
    ++ omitList "entities" (d.Entities.map marshalEntity)
    ++ omitList "relations" (d.Relations.map marshalRelation)
    ++ omitList "triples" (d.Triples.map marshalTriple))

/-- Encode the root `JSONNLP` record.  The `meta` field is tagged
`omitempty` but is struct-typed, so it is always emitted. -/
def marshalJSONNLP (d : JSONNLP) : JSON :=
  .obj (reqKV "meta" (marshalMeta d.MetaData)
    ++ omitList "documents" (d.Documents.map marshalDocument))

/-! ## Decoding (the struct side of `json.Unmarshal`)

One function of type `JSON → α → α` per struct: decode the given JSON value
into the existing receiver, leaving it unchanged on `null` or on a value of
the wrong type (Go records the type error — which every caller in this
package discards — skips the value, and keeps decoding). -/

/-- Decode into a `[]int` field. -/
def decIntList : JSON → List Int → List Int :=
  decList decInt 0

/-- Decode into a `Meta` field. -/
def unmarshalMeta : JSON → Meta → Meta
  | .obj kvs, old =>
    { DCConformsTo := fieldFold decStr "DC.conformsTo" kvs old.DCConformsTo
      DCCreated := fieldFold decStr "DC.created" kvs old.DCCreated
      DCDate := fieldFold decStr "DC.date" kvs old.DCDate
      DCSource := fieldFold decStr "DC.source" kvs old.DCSource
      DCLanguage := fieldFold decStr "DC.language" kvs old.DCLanguage
      DCCreator := fieldFold decStr "DC.creator" kvs old.DCCreator
      DCPublisher := fieldFold decStr "DC.publisher" kvs old.DCPublisher
      DCTitle := fieldFold decStr "DC.title" kvs old.DCTitle
      DCDescription := fieldFold decStr "DC.description" kvs old.DCDescription
      DCIdentifier := fieldFold decStr "DC.identifier" kvs old.DCIdentifier }
  | _, old => old

/-- Decode into a `TokenFeatures` field. -/
def unmarshalTokenFeatures : JSON → TokenFeatures → TokenFeatures
  | .obj kvs, old =>
    { Overt := fieldFold decBool "overt" kvs old.Overt
      Stop := fieldFold decBool "stop" kvs old.Stop
      Alpha := fieldFold decBool "alpha" kvs old.Alpha
      Number := fieldFold decInt "number" kvs old.Number
      Gender := fieldFold decStr "gender" kvs old.Gender
      Person := fieldFold decInt "person" kvs old.Person
      Tense := fieldFold decStr "tense" kvs old.Tense
      Perfect := fieldFold decBool "perfect" kvs old.Perfect
      Continuous := fieldFold decBool "continuous" kvs old.Continuous
      Case := fieldFold decStr "case" kvs old.Case
      Human := fieldFold decBool "human" kvs old.Human
      Animate := fieldFold decBool "animate" kvs old.Animate
      Negated := fieldFold decBool "negated" kvs old.Negated
      Countable := fieldFold decBool "countable" kvs old.Countable
      Factive := fieldFold decBool "factive" kvs old.Factive
      Counterfactive := fieldFold decBool "counterfactive" kvs old.Counterfactive
      Irregular := fieldFold decBool "irregular" kvs old.Irregular
      PhrasalVerb := fieldFold decBool "phrasalVerb" kvs old.PhrasalVerb
      Mood := fieldFold decStr "mood" kvs old.Mood
      Foreign := fieldFold decBool "foreign" kvs old.Foreign
      SpaceAfter := fieldFold decBool "spaceAfter" kvs old.SpaceAfter }
  | _, old => old

/-- Decode into a `TokenList` field (schema v0.8).  The six fields of the
three tag-conflict pairs are excluded from decoding by `encoding/json`, so
an input key `frameID`, `wordNetID` or `verbNetID` matches no field and the
six fields always keep the receiver's values. -/
def unmarshalTokenList : JSON → TokenList → TokenList
  | .obj kvs, old =>
    { ID := fieldFold decInt "id" kvs old.ID
      SentenceID := fieldFold decInt "sentence_id" kvs old.SentenceID
      Text := fieldFold decStr "text" kvs old.Text
      Lemma := fieldFold decStr "lemma" kvs old.Lemma
      XPoS := fieldFold decStr "xpos" kvs old.XPoS
      XPoSProbability := fieldFold decFloat "xpos_prob" kvs old.XPoSProbability
      UPoS := fieldFold decStr "upos" kvs old.UPoS
      UPoSProbability := fieldFold decFloat "upos_prob" kvs old.UPoSProbability
      EntityIOB := fieldFold decStr "entity_iob" kvs old.EntityIOB
      CharacterOffsetBegin := fieldFold decInt "characterOffsetBegin" kvs old.CharacterOffsetBegin
      CharacterOffsetEnd := fieldFold decInt "characterOffsetEnd" kvs old.CharacterOffsetEnd
      PropID := fieldFold decStr "propID" kvs old.PropID
      PropIDProbability := fieldFold decFloat "propIDProbability" kvs old.PropIDProbability
      FrameID := old.FrameID
      FrameIDProbability := old.FrameIDProbability
      WordNetID := old.WordNetID
      WordNetIDProbability := old.WordNetIDProbability
      VerbNetID := old.VerbNetID
      VerbNetIDProbability := old.VerbNetIDProbability
      Lang := fieldFold decStr "lang" kvs old.Lang
      Features := fieldFold unmarshalTokenFeatures "features" kvs old.Features
      Shape := fieldFold decStr "shape" kvs old.Shape
      Entity := fieldFold decStr "entity" kvs old.Entity }
  | _, old => old

/-- Decode into a `Sentence` field. -/
def unmarshalSentence : JSON → Sentence → Sentence
  | .obj kvs, old =>
    { ID := fieldFold decInt "id" kvs old.ID
      TokenFrom := fieldFold decInt "tokenFrom" kvs old.TokenFrom
      TokenTo := fieldFold decInt "tokenTo" kvs old.TokenTo
      Tokens := fieldFold decIntList "tokens" kvs old.Tokens
      Clauses := fieldFold decIntList "clauses" kvs old.Clauses
      Typ := fieldFold decStr "type" kvs old.Typ
      Sentiment := fieldFold decStr "sentiment" kvs old.Sentiment
      SentimentProbability := fieldFold decFloat "sentimentProb" kvs old.SentimentProbability }
  | _, old => old

/-- Decode into a `Clause` field. -/
def unmarshalClause : JSON → Clause → Clause
  | .obj kvs, old =>
    { ID := fieldFold decInt "id" kvs old.ID
      SentenceID := fieldFold decInt "sentenceID" kvs old.SentenceID
      TokenFrom := fieldFold decInt "tokenFrom" kvs old.TokenFrom
      TokenTo := fieldFold decInt "tokenTo" kvs old.TokenTo
      Tokens := fieldFold decIntList "tokens" kvs old.Tokens
      Main := fieldFold decBool "main" kvs old.Main
      Governor := fieldFold decInt "gov" kvs old.Governor
      Head := fieldFold decInt "head" kvs old.Head
      Negation := fieldFold decBool "neg" kvs old.Negation
      Tense := fieldFold decStr "tense" kvs old.Tense
      Voice := fieldFold decStr "voice" kvs old.Voice
      Mood := fieldFold decStr "mood" kvs old.Mood
      Sentiment := fieldFold decStr "sentiment" kvs old.Sentiment
      SentimentProbability := fieldFold decFloat "sentimentProb" kvs old.SentimentProbability }
  | _, old => old

/-- Decode into a `Dependency` field. -/
def unmarshalDependency : JSON → Dependency → Dependency
  | .obj kvs, old =>
    { Label := fieldFold decStr "lab" kvs old.Label
      Governor := fieldFold decInt "gov" kvs old.Governor
      Dependent := fieldFold decInt "dep" kvs old.Dependent
      Probability := fieldFold decFloat "prob" kvs old.Probability }
  | _, old => old

/-- Decode into a `DependencyTree` field. -/
def unmarshalDependencyTree : JSON → DependencyTree → DependencyTree
  | .obj kvs, old =>
    { SentenceID := fieldFold decInt "sentenceID" kvs old.SentenceID
      Style := fieldFold decStr "style" kvs old.Style
      Dependencies := fieldFold (decList unmarshalDependency Dependency.zero)
        "dependencies" kvs old.Dependencies
      Probability := fieldFold decFloat "prob" kvs old.Probability }
  | _, old => old

/-- Decode into a `CoreferenceRepresentantive` field. -/
def unmarshalCoreferenceRepresentantive :
    JSON → CoreferenceRepresentantive → CoreferenceRepresentantive
  | .obj kvs, old =>
    { Tokens := fieldFold decIntList "tokens" kvs old.Tokens
      Head := fieldFold decInt "head" kvs old.Head }
  | _, old => old

/-- Decode into a `CoreferenceReferents` field. -/
def unmarshalCoreferenceReferents : JSON → CoreferenceReferents → CoreferenceReferents
  | .obj kvs, old =>
    { Tokens := fieldFold decIntList "tokens" kvs old.Tokens
      Head := fieldFold decInt "head" kvs old.Head
      Probability := fieldFold decFloat "prob" kvs old.Probability }
  | _, old => old

/-- Decode into a `Coreference` field. -/
def unmarshalCoreference : JSON → Coreference → Coreference
  | .obj kvs, old =>
    { ID := fieldFold decInt "id" kvs old.ID
      Representative := fieldFold unmarshalCoreferenceRepresentantive
        "representative" kvs old.Representative
      Referents := fieldFold (decList unmarshalCoreferenceReferents CoreferenceReferents.zero)
        "referents" kvs old.Referents }
  | _, old => old

/-- Decode into a `Scope` field. -/
def unmarshalScope : JSON → Scope → Scope
  | .obj kvs, old =>
    { ID := fieldFold decInt "id" kvs old.ID
      Governor := fieldFold decIntList "gov" kvs old.Governor
      Dependents := fieldFold decIntList "dep" kvs old.Dependents
      Terminals := fieldFold decIntList "terminals" kvs old.Terminals }
  | _, old => old

/-- Decode into a `ConstituentParse` field. -/
def unmarshalConstituentParse : JSON → ConstituentParse → ConstituentParse
  | .obj kvs, old =>
    { SentenceID := fieldFold decInt "sentenceId" kvs old.SentenceID
      Typ := fieldFold decStr "type" kvs old.Typ
      LabeledBracketing := fieldFold decStr "labeledBracketing" kvs old.LabeledBracketing
      Probability := fieldFold decFloat "prob" kvs old.Probability
      Scopes := fieldFold (decList unmarshalScope Scope.zero) "scopes" kvs old.Scopes }
  | _, old => old

/-- Decode into an `Expression` field. -/
def unmarshalExpression : JSON → Expression → Expression
  | .obj kvs, old =>
    { ID := fieldFold decInt "id" kvs old.ID
      Typ := fieldFold decStr "type" kvs old.Typ
      Head := fieldFold decInt "head" kvs old.Head
      Dependency := fieldFold decStr "dependency" kvs old.Dependency
      TokenFrom := fieldFold decInt "tokenFrom" kvs old.TokenFrom
      TokenTo := fieldFold decInt "tokenTo" kvs old.TokenTo
      Tokens := fieldFold decIntList "tokens" kvs old.Tokens
      Probability := fieldFold decFloat "prob" kvs old.Probability }
  | _, old => old

/-- Decode into a `Paragraph` field. -/
def unmarshalParagraph : JSON → Paragraph → Paragraph
  | .obj kvs, old =>
    { ID := fieldFold decInt "id" kvs old.ID
      TokenFrom := fieldFold decInt "tokenFrom" kvs old.TokenFrom
      TokenTo := fieldFold decInt "tokenTo" kvs old.TokenTo
      Tokens := fieldFold decIntList "tokens" kvs old.Tokens
      Sentences := fieldFold decIntList "sentences" kvs old.Sentences }
  | _, old => old

/-- Decode into an `Attribute` field. -/
def unmarshalAttribute : JSON → Attribute → Attribute
  | .obj kvs, old =>
    { Label := fieldFold decStr "lab" kvs old.Label
      Value := fieldFold decStr "val" kvs old.Value }
  | _, old => old

/-- Decode into an `Entity` field (schema v0.8). -/
def unmarshalEntity : JSON → Entity → Entity
  | .obj kvs, old =>
    { ID := fieldFold decInt "id" kvs old.ID
      Label := fieldFold decStr "label" kvs old.Label
      Typ := fieldFold decStr "type" kvs old.Typ
      Sentiment := fieldFold decStr "sentiment" kvs old.Sentiment
      SentimentProbability := fieldFold decFloat "sentimentProb" kvs old.SentimentProbability
      Attributes := fieldFold (decList unmarshalAttribute Attribute.zero)
        "attributes" kvs old.Attributes }
  | _, old => old

/-- Decode into a `Relation` field (schema v0.8). -/
def unmarshalRelation : JSON → Relation → Relation
  | .obj kvs, old =>
    { ID := fieldFold decInt "id" kvs old.ID
      Label := fieldFold decStr "label" kvs old.Label
      Typ := fieldFold decStr "type" kvs old.Typ
      Sentiment := fieldFold decStr "sentiment" kvs old.Sentiment
      SentimentProbability := fieldFold decFloat "sentimentProb" kvs old.SentimentProbability
      Attributes := fieldFold (decList unmarshalAttribute Attribute.zero)
        "attributes" kvs old.Attributes }
  | _, old => old

/-- Decode into a `Triple` field (schema v0.8). -/
def unmarshalTriple : JSON → Triple → Triple
  | .obj kvs, old =>
    { FromEntity := fieldFold decInt "fromEntity" kvs old.FromEntity
      ToEntity := fieldFold decInt "toEntity" kvs old.ToEntity
      Relation := fieldFold decInt "rel" kvs old.Relation
      ClauseID := fieldFold decInt "clauseID" kvs old.ClauseID
      SentenceID := fieldFold decInt "sentenceID" kvs old.SentenceID
      Directional := fieldFold decBool "directional" kvs old.Directional
      EventID := fieldFold decInt "eventID" kvs old.EventID
      TemporalSequence := fieldFold decInt "tempSeq" kvs old.TemporalSequence
      Probability := fieldFold decFloat "prob" kvs old.Probability
      Syntactic := fieldFold decBool "syntactic" kvs old.Syntactic
      Implied := fieldFold decBool "implied" kvs old.Implied
      Presupposed := fieldFold decBool "presupposed" kvs old.Presupposed }
  | _, old => old

/-- Decode into a `Document` field. -/
def unmarshalDocument : JSON → Document → Document
  | .obj kvs, old =>
    { MetaDocument := fieldFold unmarshalMeta "meta" kvs old.MetaDocument
      ID := fieldFold decInt "id" kvs old.ID
      TokenList := fieldFold (decList unmarshalTokenList TokenList.zero)
        "tokenList" kvs old.TokenList
      Clauses := fieldFold (decList unmarshalClause Clause.zero) "clauses" kvs old.Clauses
      Sentences := fieldFold (decList unmarshalSentence Sentence.zero)
        "sentences" kvs old.Sentences
      Paragraphs := fieldFold (decList unmarshalParagraph Paragraph.zero)
        "paragraphs" kvs old.Paragraphs
      DependencyTrees := fieldFold (decList unmarshalDependencyTree DependencyTree.zero)
        "dependencyTrees" kvs old.DependencyTrees
      Coreferences := fieldFold (decList unmarshalCoreference Coreference.zero)
        "coreferences" kvs old.Coreferences
      Constituents := fieldFold (decList unmarshalConstituentParse ConstituentParse.zero)
        "constituents" kvs old.Constituents
      Expressions := fieldFold (decList unmarshalExpression Expression.zero)
        "expressions" kvs old.Expressions
      Entities := fieldFold (decList unmarshalEntity Entity.zero) "entities" kvs old.Entities
      Relations := fieldFold (decList unmarshalRelation Relation.zero)
        "relations" kvs old.Relations
      Triples := fieldFold (decList unmarshalTriple Triple.zero) "triples" kvs old.Triples }
  | _, old => old

/-- Decode into the root `JSONNLP` receiver. -/
def unmarshalJSONNLP : JSON → JSONNLP → JSONNLP
  | .obj kvs, old =>
    { MetaData := fieldFold unmarshalMeta "meta" kvs old.MetaData
      Documents := fieldFold (decList unmarshalDocument Document.zero)
        "documents" kvs old.Documents }
  | _, old => old

/-! ## Encode-failure condition

`json.Marshal` fails exactly when it encounters a `float64` value it cannot
represent (`NaN`, `±Inf`).  Every `float64` field of the schema is tagged
`omitempty`, and a non-finite value is never equal to `0.0`, so a
non-finite field is always emitted — except for the three conflict-dropped
probability fields of `TokenList`, which are never encoded at all.  The
`encBad…` predicates below therefore flag a non-finite value in any
*encoded* float field, record by record. -/

/-- Non-finite value in an encoded float field of a `TokenList`. -/
def encBadTokenList (t : TokenList) : Bool :=
  t.XPoSProbability.bad || t.UPoSProbability.bad || t.PropIDProbability.bad

/-- Non-finite value in one of the three conflict-dropped (never encoded)
float fields of a `TokenList`. -/
def droppedBadTokenList (t : TokenList) : Bool :=
  t.FrameIDProbability.bad || t.WordNetIDProbability.bad || t.VerbNetIDProbability.bad

/-- Non-finite value in an encoded float field of a `Sentence`. -/
def encBadSentence (s : Sentence) : Bool :=
  s.SentimentProbability.bad

/-- Non-finite value in an encoded float field of a `Clause`. -/
def encBadClause (c : Clause) : Bool :=
  c.SentimentProbability.bad

/-- Non-finite value in an encoded float field of a `DependencyTree`. -/
def encBadDependencyTree (t : DependencyTree) : Bool :=
  t.Dependencies.any (fun d => d.Probability.bad) || t.Probability.bad

/-- Non-finite value in an encoded float field of a `Coreference`. -/
def encBadCoreference (c : Coreference) : Bool :=
  c.Referents.any (fun r => r.Probability.bad)

/-- Non-finite value in an encoded float field of a `ConstituentParse`. -/
def encBadConstituentParse (c : ConstituentParse) : Bool :=
  c.Probability.bad

/-- Non-finite value in an encoded float field of an `Expression`. -/
def encBadExpression (e : Expression) : Bool :=
  e.Probability.bad

/-- Non-finite value in an encoded float field of an `Entity`. -/
def encBadEntity (e : Entity) : Bool :=
  e.SentimentProbability.bad

/-- Non-finite value in an encoded float field of a `Relation`. -/
def encBadRelation (r : Relation) : Bool :=
  r.SentimentProbability.bad

/-- Non-finite value in an encoded float field of a `Triple`. -/
def encBadTriple (t : Triple) : Bool :=
  t.Probability.bad

/-- Non-finite value in an encoded float field anywhere in a `Document`. -/
def encBadDocument (d : Document) : Bool :=
  d.TokenList.any encBadTokenList
    || d.Clauses.any encBadClause
    || d.Sentences.any encBadSentence
    || d.DependencyTrees.any encBadDependencyTree
    || d.Coreferences.any encBadCoreference
    || d.Constituents.any encBadConstituentParse
    || d.Expressions.any encBadExpression
    || d.Entities.any encBadEntity
    || d.Relations.any encBadRelation
    || d.Triples.any encBadTriple

/-- `json.Marshal` of this Corpus fails: some float field it encodes holds
a non-finite value.  (`Meta`, `TokenFeatures`, `Paragraph`, `Scope` and
`Attribute` contain no float fields.) -/
def encodeFails (d : JSONNLP) : Bool :=
  d.Documents.any encBadDocument

/-- The in-memory Corpus contains a value unrepresentable in the textual
form: a non-finite `float64` in any field — the fields `json.Marshal` would
encode (`encodeFails`) together with the three conflict-dropped
`TokenList` probability fields it silently skips. -/
def JSONNLP.hasNonFiniteFloat (d : JSONNLP) : Bool :=
  encodeFails d || d.Documents.any (fun doc => doc.TokenList.any droppedBadTokenList)

/-! ## The API surface of the package -/

/-- Go `func (data *JSONNLP) FromString(t string)`: the receiver after the
call.  `json.Unmarshal` validates the whole input first, so on a
syntactically invalid text (`none`) the receiver is untouched; in every
case the `error` result of `json.Unmarshal` is discarded
(`_ = json.Unmarshal([]byte(t), data)`) and the function returns nothing. -/
def JSONNLP.FromString (data : JSONNLP) (t : WireText) : JSONNLP :=
  match t with
  | none => data
  | some j => unmarshalJSONNLP j data

/-- Go `func (data *JSONNLP) FromFile(filename string)`: the receiver after
the call, given the file system as a map from names to contents.
`ioutil.ReadFile` reads the whole file; its error is discarded
(`file, _ := ioutil.ReadFile(filename)`), so for a missing file the
contents are the empty byte slice, which is syntactically invalid JSON
(`unexpected end of JSON input`) and leaves the receiver untouched. -/
def JSONNLP.FromFile (data : JSONNLP) (fs : String → Option WireText)
    (filename : String) : JSONNLP :=
  match fs filename with
  | none => data.FromString none
  | some contents => data.FromString contents

/-- Go `func (data *JSONNLP) GetJSON() ([]byte, error)`: serialized output
or the marshalling error. -/
def JSONNLP.GetJSON (data : JSONNLP) : Except String JSON :=
  if encodeFails data then .error "json: unsupported value" else .ok (marshalJSONNLP data)

/-! ## The version-0.8.3 `Triple` record

The later snapshot of this repository (source header `version 0.8.3`)
revises `Triple`: it gains its own `ID` field and turns `ClauseID` and
`SentenceID` into `[]int`; a `Count` field is added, and the token-level
tag conflicts are fixed.  Only `Triple` is needed here (claim about the
triple record's cross-references). -/

/-- Go struct `Triple` of the v0.8.3 snapshot. -/
structure TripleV083 where
  ID : Int               -- tag "id"
  FromEntity : Int       -- tag "fromEntity"
  ToEntity : Int         -- tag "toEntity"
  Relation : Int         -- tag "rel"
  ClauseID : List Int    -- tag "clauseID,omitempty"
  SentenceID : List Int  -- tag "sentenceID,omitempty"
  Directional : Bool     -- tag "directional,omitempty"
  EventID : Int          -- tag "eventID,omitempty"
  TemporalSequence : Int -- tag "tempSeq,omitempty"
  Probability : GoFloat  -- tag "prob,omitempty"
  Syntactic : Bool       -- tag "syntactic,omitempty"
  Implied : Bool         -- tag "implied,omitempty"
  Presupposed : Bool     -- tag "presupposed,omitempty"
  Count : Int            -- tag "count,omitempty"
deriving DecidableEq, Repr

/-- Go zero value of the v0.8.3 `Triple`. -/
def TripleV083.zero : TripleV083 :=
  ⟨0, 0, 0, 0, [], [], false, 0, 0, .finite 0, false, false, false, 0⟩

/-- Encode a v0.8.3 `Triple` record. -/
def marshalTripleV083 (t : TripleV083) : JSON :=
  .obj (reqKV "id" (.int t.ID)
    ++ reqKV "fromEntity" (.int t.FromEntity)
    ++ reqKV "toEntity" (.int t.ToEntity)
    ++ reqKV "rel" (.int t.Relation)
    ++ omitList "clauseID" (t.ClauseID.map JSON.int)
    ++ omitList "sentenceID" (t.SentenceID.map JSON.int)
    ++ omitBool "directional" t.Directional
    ++ omitInt "eventID" t.EventID
    ++ omitInt "tempSeq" t.TemporalSequence
    ++ omitFloat "prob" t.Probability
    ++ omitBool "syntactic" t.Syntactic
    ++ omitBool "implied" t.Implied
    ++ omitBool "presupposed" t.Presupposed
    ++ omitInt "count" t.Count)

/-- Decode into a v0.8.3 `Triple` field. -/
def unmarshalTripleV083 : JSON → TripleV083 → TripleV083
  | .obj kvs, old =>
    { ID := fieldFold decInt "id" kvs old.ID
      FromEntity := fieldFold decInt "fromEntity" kvs old.FromEntity
      ToEntity := fieldFold decInt "toEntity" kvs old.ToEntity
      Relation := fieldFold decInt "rel" kvs old.Relation
      ClauseID := fieldFold decIntList "clauseID" kvs old.ClauseID
      SentenceID := fieldFold decIntList "sentenceID" kvs old.SentenceID
      Directional := fieldFold decBool "directional" kvs old.Directional
      EventID := fieldFold decInt "eventID" kvs old.EventID
      TemporalSequence := fieldFold decInt "tempSeq" kvs old.TemporalSequence
      Probability := fieldFold decFloat "prob" kvs old.Probability
      Syntactic := fieldFold decBool "syntactic" kvs old.Syntactic
      Implied := fieldFold decBool "implied" kvs old.Implied
      Presupposed := fieldFold decBool "presupposed" kvs old.Presupposed
      Count := fieldFold decInt "count" kvs old.Count }
  | _, old => old

/-! ## Auxiliary definitions used by the verification statements -/

/-- The six `TokenList` fields dropped by the v0.8 tag conflicts all hold
their zero value (they do in any Corpus whose optional fields are all
zero-valued). -/
def TokenList.droppedZero (t : TokenList) : Prop :=
  t.FrameID = 0 ∧ t.FrameIDProbability = .finite 0 ∧
  t.WordNetID = 0 ∧ t.WordNetIDProbability = .finite 0 ∧
  t.VerbNetID = 0 ∧ t.VerbNetIDProbability = .finite 0

/-- Every token of the Corpus satisfies `TokenList.droppedZero`. -/
def JSONNLP.droppedZero (d : JSONNLP) : Prop :=
  ∀ doc ∈ d.Documents, ∀ t ∈ doc.TokenList, t.droppedZero

/-- A token whose only non-zero field is its (mandatory) text: every
optional field, in particular the nested `Features` record, holds its zero
value. -/
def tokenJohn : TokenList :=
  ⟨0, 0, "John", "", "", .finite 0, "", .finite 0, "", 0, 0, "", .finite 0,
   0, .finite 0, 0, .finite 0, 0, .finite 0, "", TokenFeatures.zero, "", ""⟩

/-- A token with fine-grained part-of-speech confidence 0.87 (the spec's
example scenario for the omission law). -/
def token087 : TokenList :=
  ⟨1, 0, "runs", "", "NNP", .finite (87 / 100), "", .finite 0, "", 0, 0, "",
   .finite 0, 0, .finite 0, 0, .finite 0, 0, .finite 0, "", TokenFeatures.zero, "", ""⟩

/-- One-document corpus holding only `tokenJohn`. -/
def corpusJohn : JSONNLP :=
  ⟨Meta.zero, [⟨Meta.zero, 1, [tokenJohn], [], [], [], [], [], [], [], [], [], []⟩]⟩

/-- A token with a non-zero `FrameID` of 5, all other optional fields
zero (exhibits a non-zero optional field whose wire key is nevertheless
absent from the encoded output, being in a tag-conflict set). -/
def tokenFrame5 : TokenList :=
  ⟨2, 0, "ran", "", "", .finite 0, "", .finite 0, "", 0, 0, "", .finite 0,
   5, .finite 0, 0, .finite 0, 0, .finite 0, "", TokenFeatures.zero, "", ""⟩

/-- Corpus with conformance metadata and one annotated token, all optional
fields zero (the spec's round-trip example scenario). -/
def corpusC3 : JSONNLP :=
  ⟨⟨"1.0", "2020-05-28T02:15:19", "", "", "", "", "", "", "", ""⟩,
   [⟨⟨"1.0", "2020-05-28T02:15:19", "", "", "", "", "", "", "", ""⟩, 1,
     [tokenJohn], [], [], [], [], [], [], [], [], [], []⟩]⟩

/-- Corpus containing a token whose `XPoSProbability` is `NaN`. -/
def corpusNaN : JSONNLP :=
  ⟨Meta.zero,
   [⟨Meta.zero, 1,
     [⟨0, 0, "x", "", "", .nan, "", .finite 0, "", 0, 0, "", .finite 0,
       0, .finite 0, 0, .finite 0, 0, .finite 0, "", TokenFeatures.zero, "", ""⟩],
     [], [], [], [], [], [], [], [], [], []⟩]⟩

/-- Corpus whose float fields are all finite. -/
def corpusFine : JSONNLP :=
  ⟨Meta.zero, [⟨Meta.zero, 2, [token087], [], [], [], [], [], [], [], [], [], []⟩]⟩

/-- A non-empty corpus used as a pre-populated decode receiver. -/
def corpusC10 : JSONNLP :=
  ⟨⟨"0.8", "2020-06-01", "", "", "en", "", "", "", "", ""⟩,
   [⟨Meta.zero, 3, [tokenJohn], [], [⟨1, 0, 0, [0], [], "declarative", "", .finite 0⟩],
     [], [], [], [], [], [⟨4, "Org", "ORG", "", .finite 0, []⟩], [], []⟩]⟩

/-- A file system holding one well-formed file `corpus.json`. -/
def fsC8 : String → Option WireText :=
  fun n => if n = "corpus.json" then some (some (.obj [("documents", .null)])) else none

/-! ## Basic lemmas about the codec primitives -/

@[simp]
theorem fieldFold_nil (upd : JSON → α → α) (n : String) (old : α) :
    fieldFold upd n [] old = old :=
  rfl

theorem fieldFold_cons (upd : JSON → α → α) (n : String) (kv : String × JSON)
    (kvs : List (String × JSON)) (old : α) :
    fieldFold upd n (kv :: kvs) old =
      fieldFold upd n kvs (if foldName kv.1 = foldName n then upd kv.2 old else old) :=
  rfl

@[simp]
theorem fieldFold_append (upd : JSON → α → α) (n : String)
    (xs ys : List (String × JSON)) (old : α) :
    fieldFold upd n (xs ++ ys) old = fieldFold upd n ys (fieldFold upd n xs old) := by
  simp [fieldFold, List.foldl_append]

@[simp]
theorem fieldFold_reqKV_eq (upd : JSON → α → α) (n : String) (v : JSON) (old : α) :
    fieldFold upd n (reqKV n v) old = upd v old := by
  simp [fieldFold, reqKV]

@[simp]
theorem fieldFold_reqKV_ne (upd : JSON → α → α) (n m : String) (v : JSON) (old : α)
    (h : ¬foldName m = foldName n) :
    fieldFold upd n (reqKV m v) old = old := by
  simp [fieldFold, reqKV, h]

@[simp]
theorem fieldFold_omitKV_eq (upd : JSON → α → α) (c : Prop) [Decidable c]
    (n : String) (v : JSON) (old : α) :
    fieldFold upd n (omitKV c n v) old = if c then old else upd v old := by
  by_cases hc : c <;> simp [fieldFold, omitKV, hc]

@[simp]
theorem fieldFold_omitKV_ne (upd : JSON → α → α) (c : Prop) [Decidable c]
    (n m : String) (v : JSON) (old : α) (h : ¬foldName m = foldName n) :
    fieldFold upd n (omitKV c m v) old = old := by
  by_cases hc : c <;> simp [fieldFold, omitKV, hc, h]

/-- A field none of whose input keys match its tag name (under Go's
case-insensitive key matching) keeps the receiver's value. -/
theorem fieldFold_no_match (upd : JSON → α → α) (n : String)
    (kvs : List (String × JSON)) (old : α)
    (h : ∀ kv ∈ kvs, ¬foldName kv.1 = foldName n) :
    fieldFold upd n kvs old = old := by
  induction kvs generalizing old with
  | nil => rfl
  | cons kv rest ih =>
    rw [fieldFold_cons, if_neg (h kv (List.mem_cons_self kv rest))]
    exact ih old (fun kv2 h2 => h kv2 (List.mem_cons_of_mem kv h2))

/-- Freshly decoding the element-wise encoding of a list recovers the
list. -/
theorem mergeList_fresh (dec : JSON → α → α) (z : α) (m : α → JSON)
    (xs : List α) (h : ∀ x ∈ xs, dec (m x) z = x) :
    mergeList dec z [] (xs.map m) = xs := by
  induction xs with
  | nil => rfl
  | cons x rest ih =>
    simp only [List.map_cons, mergeList]
    rw [h x (List.mem_cons_self x rest), ih (fun y hy => h y (List.mem_cons_of_mem x hy))]

@[simp]
theorem decList_null (dec : JSON → α → α) (z : α) (old : List α) :
    decList dec z .null old = [] :=
  rfl

@[simp]
theorem decList_int_fresh (xs : List Int) :
    decList decInt 0 (.arr (xs.map JSON.int)) [] = xs := by
  simpa [decList] using mergeList_fresh decInt 0 JSON.int xs (fun x _ => rfl)

@[simp]
theorem decIntList_fresh (xs : List Int) :
    decIntList (.arr (xs.map JSON.int)) [] = xs :=
  decList_int_fresh xs

/-- The two shapes produced by an `if x = z then z else x` pattern left by
an `omitempty` field decoded into a zero receiver. -/
@[simp]
theorem ite_self_zero {α : Type} [DecidableEq α] (x z : α) :
    (if x = z then z else x) = x := by
  by_cases h : x = z <;> simp [h]

/-! ## Record-level round-trip lemmas (decode after encode on a fresh
receiver) -/

theorem unmarshalMeta_marshalMeta (m : Meta) :
    unmarshalMeta (marshalMeta m) Meta.zero = m := by
  simp +decide [marshalMeta, unmarshalMeta, Meta.zero, omitStr, decStr]

theorem unmarshalTokenFeatures_marshalTokenFeatures (f : TokenFeatures) :
    unmarshalTokenFeatures (marshalTokenFeatures f) TokenFeatures.zero = f := by
  simp +decide [marshalTokenFeatures, unmarshalTokenFeatures, TokenFeatures.zero,
    omitStr, omitInt, omitBool, decStr, decInt, decBool]

theorem unmarshalSentence_marshalSentence (s : Sentence) :
    unmarshalSentence (marshalSentence s) Sentence.zero = s := by
  simp +decide [marshalSentence, unmarshalSentence, Sentence.zero,
    omitStr, omitInt, omitFloat, omitList, decStr, decInt, decFloat]

/-- Freshly decoding the encoding of a list of records recovers the list,
given the element-level round trip. -/
theorem decList_fresh (dec : JSON → α → α) (z : α) (m : α → JSON)
    (xs : List α) (h : ∀ x ∈ xs, dec (m x) z = x) :
    decList dec z (.arr (xs.map m)) [] = xs := by
  simpa [decList] using mergeList_fresh dec z m xs h

theorem unmarshalTokenList_marshalTokenList (t : TokenList) (h : t.droppedZero) :
    unmarshalTokenList (marshalTokenList t) TokenList.zero = t := by
  obtain ⟨e1, e2, e3, e4, e5, e6⟩ := h
  cases t
  simp only [TokenList.FrameID] at e1
  simp only [TokenList.FrameIDProbability] at e2
  simp only [TokenList.WordNetID] at e3
  simp only [TokenList.WordNetIDProbability] at e4
  simp only [TokenList.VerbNetID] at e5
  simp only [TokenList.VerbNetIDProbability] at e6
  subst e1 e2 e3 e4 e5 e6
  simp +decide [marshalTokenList, unmarshalTokenList, TokenList.zero,
    omitStr, omitInt, omitFloat, decStr, decInt, decFloat,
    unmarshalTokenFeatures_marshalTokenFeatures]

@[simp]
theorem decList_ite (dec : JSON → α → α) (z : α) (c : Prop) [Decidable c]
    (a b : JSON) (old : List α) :
    decList dec z (if c then a else b) old =
      if c then decList dec z a old else decList dec z b old :=
  apply_ite (fun j => decList dec z j old) c a b

@[simp]
theorem decIntList_null (old : List Int) : decIntList .null old = [] :=
  rfl

@[simp]
theorem decIntList_ite (c : Prop) [Decidable c] (a b : JSON) (old : List Int) :
    decIntList (if c then a else b) old =
      if c then decIntList a old else decIntList b old :=
  apply_ite (fun j => decIntList j old) c a b

theorem unmarshalClause_marshalClause (c : Clause) :
    unmarshalClause (marshalClause c) Clause.zero = c := by
  simp +decide [marshalClause, unmarshalClause, Clause.zero,
    omitStr, omitInt, omitFloat, omitBool, omitList, decStr, decInt, decFloat, decBool]

theorem unmarshalDependency_marshalDependency (d : Dependency) :
    unmarshalDependency (marshalDependency d) Dependency.zero = d := by
  simp +decide [marshalDependency, unmarshalDependency, Dependency.zero,
    omitFloat, decStr, decInt, decFloat]

theorem unmarshalDependencyTree_marshalDependencyTree (t : DependencyTree) :
    unmarshalDependencyTree (marshalDependencyTree t) DependencyTree.zero = t := by
  have hd : decList unmarshalDependency Dependency.zero
      (.arr (t.Dependencies.map marshalDependency)) [] = t.Dependencies :=
    decList_fresh _ _ _ _ (fun x _ => unmarshalDependency_marshalDependency x)
  simp +decide [marshalDependencyTree, unmarshalDependencyTree, DependencyTree.zero,
    omitStr, omitFloat, omitList, decStr, decInt, decFloat, hd]

theorem unmarshalCoreferenceRepresentantive_marshal (r : CoreferenceRepresentantive) :
    unmarshalCoreferenceRepresentantive (marshalCoreferenceRepresentantive r)
      CoreferenceRepresentantive.zero = r := by
  simp +decide [marshalCoreferenceRepresentantive, unmarshalCoreferenceRepresentantive,
    CoreferenceRepresentantive.zero, reqList, omitInt, decInt, decIntList]

theorem unmarshalCoreferenceReferents_marshal (r : CoreferenceReferents) :
    unmarshalCoreferenceReferents (marshalCoreferenceReferents r)
      CoreferenceReferents.zero = r := by
  simp +decide [marshalCoreferenceReferents, unmarshalCoreferenceReferents,
    CoreferenceReferents.zero, reqList, omitInt, omitFloat, decInt, decFloat,
    decIntList]

theorem unmarshalCoreference_marshalCoreference (c : Coreference) :
    unmarshalCoreference (marshalCoreference c) Coreference.zero = c := by
  have hr : decList unmarshalCoreferenceReferents CoreferenceReferents.zero
      (.arr (c.Referents.map marshalCoreferenceReferents)) [] = c.Referents :=
    decList_fresh _ _ _ _ (fun x _ => unmarshalCoreferenceReferents_marshal x)
  simp +decide [marshalCoreference, unmarshalCoreference, Coreference.zero, reqList,
    decInt, hr, unmarshalCoreferenceRepresentantive_marshal]

theorem unmarshalScope_marshalScope (s : Scope) :
    unmarshalScope (marshalScope s) Scope.zero = s := by
  simp +decide [marshalScope, unmarshalScope, Scope.zero, reqList, omitList,
    decInt, decIntList]

theorem unmarshalConstituentParse_marshalConstituentParse (c : ConstituentParse) :
    unmarshalConstituentParse (marshalConstituentParse c) ConstituentParse.zero = c := by
  have hs : decList unmarshalScope Scope.zero
      (.arr (c.Scopes.map marshalScope)) [] = c.Scopes :=
    decList_fresh _ _ _ _ (fun x _ => unmarshalScope_marshalScope x)
  simp +decide [marshalConstituentParse, unmarshalConstituentParse, ConstituentParse.zero,
    omitStr, omitFloat, omitList, decStr, decInt, decFloat, hs]

theorem unmarshalExpression_marshalExpression (e : Expression) :
    unmarshalExpression (marshalExpression e) Expression.zero = e := by
  simp +decide [marshalExpression, unmarshalExpression, Expression.zero, reqList,
    omitStr, omitInt, omitFloat, decStr, decInt, decFloat, decIntList]

theorem unmarshalParagraph_marshalParagraph (p : Paragraph) :
    unmarshalParagraph (marshalParagraph p) Paragraph.zero = p := by
  simp +decide [marshalParagraph, unmarshalParagraph, Paragraph.zero,
    omitInt, omitList, decInt, decIntList]

theorem unmarshalAttribute_marshalAttribute (a : Attribute) :
    unmarshalAttribute (marshalAttribute a) Attribute.zero = a := by
  simp +decide [marshalAttribute, unmarshalAttribute, Attribute.zero, decStr]

theorem unmarshalEntity_marshalEntity (e : Entity) :
    unmarshalEntity (marshalEntity e) Entity.zero = e := by
  have ha : decList unmarshalAttribute Attribute.zero
      (.arr (e.Attributes.map marshalAttribute)) [] = e.Attributes :=
    decList_fresh _ _ _ _ (fun x _ => unmarshalAttribute_marshalAttribute x)
  simp +decide [marshalEntity, unmarshalEntity, Entity.zero, reqList,
    omitStr, omitFloat, decStr, decInt, decFloat, ha]

theorem unmarshalRelation_marshalRelation (r : Relation) :
    unmarshalRelation (marshalRelation r) Relation.zero = r := by
  have ha : decList unmarshalAttribute Attribute.zero
      (.arr (r.Attributes.map marshalAttribute)) [] = r.Attributes :=
    decList_fresh _ _ _ _ (fun x _ => unmarshalAttribute_marshalAttribute x)
  simp +decide [marshalRelation, unmarshalRelation, Relation.zero, reqList,
    omitStr, omitFloat, decStr, decInt, decFloat, ha]

theorem unmarshalTriple_marshalTriple (t : Triple) :
    unmarshalTriple (marshalTriple t) Triple.zero = t := by
  simp +decide [marshalTriple, unmarshalTriple, Triple.zero,
    omitInt, omitFloat, omitBool, decInt, decFloat, decBool]

theorem unmarshalTripleV083_marshalTripleV083 (t : TripleV083) :
    unmarshalTripleV083 (marshalTripleV083 t) TripleV083.zero = t := by
  simp +decide [marshalTripleV083, unmarshalTripleV083, TripleV083.zero,
    omitInt, omitFloat, omitBool, omitList, decInt, decFloat, decBool, decIntList]

theorem unmarshalDocument_marshalDocument (d : Document)
    (h : ∀ t ∈ d.TokenList, t.droppedZero) :
    unmarshalDocument (marshalDocument d) Document.zero = d := by
  have htok : decList unmarshalTokenList TokenList.zero
      (.arr (d.TokenList.map marshalTokenList)) [] = d.TokenList :=
    decList_fresh _ _ _ _ (fun x hx => unmarshalTokenList_marshalTokenList x (h x hx))
  have hcl : decList unmarshalClause Clause.zero
      (.arr (d.Clauses.map marshalClause)) [] = d.Clauses :=
    decList_fresh _ _ _ _ (fun x _ => unmarshalClause_marshalClause x)
  have hse : decList unmarshalSentence Sentence.zero
      (.arr (d.Sentences.map marshalSentence)) [] = d.Sentences :=
    decList_fresh _ _ _ _ (fun x _ => unmarshalSentence_marshalSentence x)
  have hpa : decList unmarshalParagraph Paragraph.zero
      (.arr (d.Paragraphs.map marshalParagraph)) [] = d.Paragraphs :=
    decList_fresh _ _ _ _ (fun x _ => unmarshalParagraph_marshalParagraph x)
  have hdt : decList unmarshalDependencyTree DependencyTree.zero
      (.arr (d.DependencyTrees.map marshalDependencyTree)) [] = d.DependencyTrees :=
    decList_fresh _ _ _ _ (fun x _ => unmarshalDependencyTree_marshalDependencyTree x)
  have hco : decList unmarshalCoreference Coreference.zero
      (.arr (d.Coreferences.map marshalCoreference)) [] = d.Coreferences :=
    decList_fresh _ _ _ _ (fun x _ => unmarshalCoreference_marshalCoreference x)
  have hcp : decList unmarshalConstituentParse ConstituentParse.zero
      (.arr (d.Constituents.map marshalConstituentParse)) [] = d.Constituents :=
    decList_fresh _ _ _ _ (fun x _ => unmarshalConstituentParse_marshalConstituentParse x)
  have hex : decList unmarshalExpression Expression.zero
      (.arr (d.Expressions.map marshalExpression)) [] = d.Expressions :=
    decList_fresh _ _ _ _ (fun x _ => unmarshalExpression_marshalExpression x)
  have hen : decList unmarshalEntity Entity.zero
      (.arr (d.Entities.map marshalEntity)) [] = d.Entities :=
    decList_fresh _ _ _ _ (fun x _ => unmarshalEntity_marshalEntity x)
  have hre : decList unmarshalRelation Relation.zero
      (.arr (d.Relations.map marshalRelation)) [] = d.Relations :=
    decList_fresh _ _ _ _ (fun x _ => unmarshalRelation_marshalRelation x)
  have htr : decList unmarshalTriple Triple.zero
      (.arr (d.Triples.map marshalTriple)) [] = d.Triples :=
    decList_fresh _ _ _ _ (fun x _ => unmarshalTriple_marshalTriple x)
  simp +decide [marshalDocument, unmarshalDocument, Document.zero, omitList,
    decInt, unmarshalMeta_marshalMeta,
    htok, hcl, hse, hpa, hdt, hco, hcp, hex, hen, hre, htr]

theorem unmarshalJSONNLP_marshalJSONNLP (d : JSONNLP) (h : d.droppedZero) :
    unmarshalJSONNLP (marshalJSONNLP d) JSONNLP.zero = d := by
  have hdoc : decList unmarshalDocument Document.zero
      (.arr (d.Documents.map marshalDocument)) [] = d.Documents :=
    decList_fresh _ _ _ _ (fun x hx => unmarshalDocument_marshalDocument x (h x hx))
  simp +decide [marshalJSONNLP, unmarshalJSONNLP, JSONNLP.zero, omitList,
    unmarshalMeta_marshalMeta, hdoc]

/-! ## Lemmas for first-match key lookup in encoded objects -/

@[simp]
theorem findKey_nil (n : String) : findKey [] n = none :=
  rfl

@[simp]
theorem findKey_reqKV_eq (n : String) (v : JSON) : findKey (reqKV n v) n = some v := by
  simp [findKey, reqKV]

@[simp]
theorem findKey_reqKV_ne (n m : String) (v : JSON) (h : ¬m = n) :
    findKey (reqKV m v) n = none := by
  simp [findKey, reqKV, h]

@[simp]
theorem findKey_reqKV_append_eq (n : String) (v : JSON) (ys : List (String × JSON)) :
    findKey (reqKV n v ++ ys) n = some v := by
  simp [findKey, reqKV]

@[simp]
theorem findKey_reqKV_append_ne (n m : String) (v : JSON) (ys : List (String × JSON))
    (h : ¬m = n) :
    findKey (reqKV m v ++ ys) n = findKey ys n := by
  simp [findKey, reqKV, h]

@[simp]
theorem findKey_omitKV_eq (c : Prop) [Decidable c] (n : String) (v : JSON) :
    findKey (omitKV c n v) n = if c then none else some v := by
  by_cases hc : c <;> simp [findKey, omitKV, hc]

@[simp]
theorem findKey_omitKV_ne (c : Prop) [Decidable c] (n m : String) (v : JSON)
    (h : ¬m = n) :
    findKey (omitKV c m v) n = none := by
  by_cases hc : c <;> simp [findKey, omitKV, hc, h]

@[simp]
theorem findKey_omitKV_append_eq (c : Prop) [Decidable c] (n : String) (v : JSON)
    (ys : List (String × JSON)) :
    findKey (omitKV c n v ++ ys) n = if c then findKey ys n else some v := by
  by_cases hc : c <;> simp [findKey, omitKV, hc]

@[simp]
theorem findKey_omitKV_append_ne (c : Prop) [Decidable c] (n m : String) (v : JSON)
    (ys : List (String × JSON)) (h : ¬m = n) :
    findKey (omitKV c m v ++ ys) n = findKey ys n := by
  by_cases hc : c <;> simp [findKey, omitKV, hc, h]

/-! ## Claim theorems -/

/-- C1 — the code, not the claim: `FromString` and `FromFile` return
nothing (`func (data *JSONNLP) FromString(t string)` has no result), and
both discard the errors of `json.Unmarshal` and `ioutil.ReadFile`
(`_ = json.Unmarshal…`, `file, _ := ioutil.ReadFile…`).  Decoding a
syntactically invalid text into an empty Corpus, and reading a
non-existent file, leave the receiver exactly the zero-valued Corpus with
no error surfaced — indistinguishable from decoding an empty document, the
precise behaviour the claim rules out.  This evaluates the embedded code
at the failing inputs. -/
theorem fromString_fromFile_swallow_errors :
    JSONNLP.FromString JSONNLP.zero none = JSONNLP.zero ∧
    JSONNLP.FromFile JSONNLP.zero (fun _ => none) "missing.json" = JSONNLP.zero :=
  ⟨rfl, rfl⟩

/-- C8: if the file system holds contents `b` at `filename`, then
`FromFile` leaves the receiver exactly as `FromString` on `b` does: the
whole file is read first and file-based decode refines string-based
decode. -/
theorem fromFile_refines_fromString (data : JSONNLP) (fs : String → Option WireText)
    (filename : String) (b : WireText) (h : fs filename = some b) :
    data.FromFile fs filename = data.FromString b := by
  simp [JSONNLP.FromFile, h]

/-- Witness for C8 at a concrete file system, receiver and contents. -/
theorem fromFile_refines_fromString_witness :
    fsC8 "corpus.json" = some (some (.obj [("documents", .null)])) ∧
    JSONNLP.FromFile JSONNLP.zero fsC8 "corpus.json" =
      JSONNLP.FromString JSONNLP.zero (some (.obj [("documents", .null)])) :=
  ⟨rfl, fromFile_refines_fromString JSONNLP.zero fsC8 "corpus.json"
    (some (.obj [("documents", .null)])) rfl⟩

/-- C9: in the v0.8 schema the tag conflicts (`frameID`, `wordNetID`,
`verbNetID` each declared on two `TokenList` fields) make `encoding/json`
drop all six fields on both sides: the encoder never emits those three
wire keys, whatever values the fields hold (tokens are the only records
carrying these keys, so `GetJSON` output never contains them), and the
decoder never touches the six fields, whatever the input object holds. -/
theorem conflictTags_drop_six_fields (t old : TokenList) (kvs : List (String × JSON)) :
    (marshalTokenList t).getKey "frameID" = none ∧
    (marshalTokenList t).getKey "wordNetID" = none ∧
    (marshalTokenList t).getKey "verbNetID" = none ∧
    (unmarshalTokenList (.obj kvs) old).FrameID = old.FrameID ∧
    (unmarshalTokenList (.obj kvs) old).FrameIDProbability = old.FrameIDProbability ∧
    (unmarshalTokenList (.obj kvs) old).WordNetID = old.WordNetID ∧
    (unmarshalTokenList (.obj kvs) old).WordNetIDProbability = old.WordNetIDProbability ∧
    (unmarshalTokenList (.obj kvs) old).VerbNetID = old.VerbNetID ∧
    (unmarshalTokenList (.obj kvs) old).VerbNetIDProbability = old.VerbNetIDProbability := by
  refine ⟨?_, ?_, ?_, rfl, rfl, rfl, rfl, rfl, rfl⟩ <;>
    simp +decide [marshalTokenList, JSON.getKey, omitStr, omitInt, omitFloat]

/-- C10 counterexample: Go's case-insensitive key matching defeats the
claim as stated: decoding an object that holds the key `"META"` — while
the wire key `"meta"` is absent from the input — overwrites the
pre-populated receiver's metadata. -/
theorem case_variant_key_overwrites_receiver :
    ("meta" ∉ ([("META", JSON.obj [("DC.conformsTo", .str "9.9")])].map Prod.fst)) ∧
    corpusC10.MetaData.DCConformsTo = "0.8" ∧
    (JSONNLP.FromString corpusC10
        (some (.obj [("META", .obj [("DC.conformsTo", .str "9.9")])]))).MetaData.DCConformsTo
      = "9.9" :=
  ⟨by decide, rfl, by decide⟩

/-- C10 as amended: decoding does not reset the receiver: `FromString` of
the empty object `{}` leaves the receiver exactly unchanged, and every
top-level field that no input key matches — under `encoding/json`'s
case-insensitive key matching, not mere absence of the exact wire key —
keeps its prior value. -/
theorem absent_keys_preserve_receiver (data : JSONNLP) (kvs : List (String × JSON)) :
    JSONNLP.FromString data (some (.obj [])) = data ∧
    ((∀ kv ∈ kvs, ¬foldName kv.1 = foldName "meta") →
      (JSONNLP.FromString data (some (.obj kvs))).MetaData = data.MetaData) ∧
    ((∀ kv ∈ kvs, ¬foldName kv.1 = foldName "documents") →
      (JSONNLP.FromString data (some (.obj kvs))).Documents = data.Documents) := by
  refine ⟨rfl, fun h => ?_, fun h => ?_⟩ <;>
    simp [JSONNLP.FromString, unmarshalJSONNLP, fieldFold_no_match _ _ _ _ h]

/-- Witness for C10: decoding `{}` (and an object with only an unknown
key) into a concrete non-empty Corpus changes nothing. -/
theorem absent_keys_preserve_receiver_witness :
    JSONNLP.FromString corpusC10 (some (.obj [])) = corpusC10 ∧
    (JSONNLP.FromString corpusC10 (some (.obj [("extra", .bool true)]))).Documents =
      corpusC10.Documents :=
  ⟨(absent_keys_preserve_receiver corpusC10 []).1,
   (absent_keys_preserve_receiver corpusC10 [("extra", .bool true)]).2.2 (by decide)⟩

/-- C6: `GetJSON` fails only when the in-memory Corpus holds a value that
the textual form cannot represent (a non-finite float); on a Corpus free
of such values it returns the serialized output with no error. -/
theorem encode_fails_only_on_nonfinite (d : JSONNLP) :
    (∀ e, d.GetJSON = .error e → d.hasNonFiniteFloat = true) ∧
    (d.hasNonFiniteFloat = false → d.GetJSON = .ok (marshalJSONNLP d)) := by
  constructor
  · intro e he
    cases hE : encodeFails d with
    | true => simp [JSONNLP.hasNonFiniteFloat, hE]
    | false => simp [JSONNLP.GetJSON, hE] at he
  · intro h
    simp only [JSONNLP.hasNonFiniteFloat, Bool.or_eq_false_iff] at h
    simp [JSONNLP.GetJSON, h.1]

/-- Witness for C6: a Corpus with a `NaN` confidence makes `GetJSON` fail
and is flagged as holding a non-finite float; a Corpus with only finite
floats encodes successfully. -/
theorem encode_fails_only_on_nonfinite_witness :
    corpusNaN.GetJSON = .error "json: unsupported value" ∧
    corpusNaN.hasNonFiniteFloat = true ∧
    corpusFine.hasNonFiniteFloat = false ∧
    corpusFine.GetJSON = .ok (marshalJSONNLP corpusFine) :=
  ⟨rfl,
   (encode_fails_only_on_nonfinite corpusNaN).1 "json: unsupported value" rfl,
   rfl,
   (encode_fails_only_on_nonfinite corpusFine).2 rfl⟩

/-- C7: the v0.8.3 `Triple` carries its own integer id and list-valued
clause/sentence cross-references: decoding a wire object with an integer
`id` and integer arrays `clauseID`/`sentenceID` populates exactly those
fields, and the three fields survive an encode/decode round trip. -/
theorem tripleV083_id_and_reference_lists (t : TripleV083) (n : Int) (cs ss : List Int) :
    ((unmarshalTripleV083
        (.obj [("id", .int n), ("clauseID", .arr (cs.map JSON.int)),
          ("sentenceID", .arr (ss.map JSON.int))]) TripleV083.zero).ID = n ∧
     (unmarshalTripleV083
        (.obj [("id", .int n), ("clauseID", .arr (cs.map JSON.int)),
          ("sentenceID", .arr (ss.map JSON.int))]) TripleV083.zero).ClauseID = cs ∧
     (unmarshalTripleV083
        (.obj [("id", .int n), ("clauseID", .arr (cs.map JSON.int)),
          ("sentenceID", .arr (ss.map JSON.int))]) TripleV083.zero).SentenceID = ss) ∧
    ((unmarshalTripleV083 (marshalTripleV083 t) TripleV083.zero).ID = t.ID ∧
     (unmarshalTripleV083 (marshalTripleV083 t) TripleV083.zero).ClauseID = t.ClauseID ∧
     (unmarshalTripleV083 (marshalTripleV083 t) TripleV083.zero).SentenceID = t.SentenceID) := by
  have hrt := unmarshalTripleV083_marshalTripleV083 t
  refine ⟨⟨?_, ?_, ?_⟩, ?_, ?_, ?_⟩
  · simp +decide [unmarshalTripleV083, TripleV083.zero, fieldFold, decInt, decIntList]
  · simp +decide [unmarshalTripleV083, TripleV083.zero, fieldFold, decInt, decIntList]
  · simp +decide [unmarshalTripleV083, TripleV083.zero, fieldFold, decInt, decIntList]
  · rw [hrt]
  · rw [hrt]
  · rw [hrt]

/-- C2 counterexample, refuting both directions of the claim.  Zero
direction: `corpusJohn` holds one token whose optional `Features` field is
the all-zero nested record, yet the encoded output carries the wire key
`"features"` (with value `{}`), and likewise the zero-valued optional
metadata field `DC.created` appears as an empty string.  Non-zero
direction: `tokenFrame5` has `FrameID = 5`, yet its encoding carries no
`"frameID"` key at all (the field sits in a tag-conflict set the encoder
drops). -/
theorem features_key_present_when_zero :
    tokenJohn.Features = TokenFeatures.zero ∧
    (marshalTokenList tokenJohn).getKey "features" = some (.obj []) ∧
    tokenFrame5.FrameID = 5 ∧
    (marshalTokenList tokenFrame5).getKey "frameID" = none ∧
    corpusJohn.GetJSON = Except.ok (JSON.obj
      [("meta", .obj [("DC.conformsTo", .str ""), ("DC.created", .str "")]),
       ("documents", .arr
         [.obj [("meta", .obj [("DC.conformsTo", .str ""), ("DC.created", .str "")]),
                ("id", .int 1),
                ("tokenList", .arr
                  [.obj [("id", .int 0), ("sentence_id", .int 0), ("text", .str "John"),
                         ("features", .obj [])]])]])]) :=
  ⟨rfl, rfl, rfl, rfl, rfl⟩

/-- Field-presence law for the `Meta` encoder. -/
theorem presence_marshalMeta (m : Meta) :
    (marshalMeta m).getKey "DC.conformsTo" = some (.str m.DCConformsTo) ∧
    (marshalMeta m).getKey "DC.created" = some (.str m.DCCreated) ∧
    (marshalMeta m).getKey "DC.date" = (if m.DCDate = "" then none else some (.str m.DCDate)) ∧
    (marshalMeta m).getKey "DC.source" = (if m.DCSource = "" then none else some (.str m.DCSource)) ∧
    (marshalMeta m).getKey "DC.language" = (if m.DCLanguage = "" then none else some (.str m.DCLanguage)) ∧
    (marshalMeta m).getKey "DC.creator" = (if m.DCCreator = "" then none else some (.str m.DCCreator)) ∧
    (marshalMeta m).getKey "DC.publisher" = (if m.DCPublisher = "" then none else some (.str m.DCPublisher)) ∧
    (marshalMeta m).getKey "DC.title" = (if m.DCTitle = "" then none else some (.str m.DCTitle)) ∧
    (marshalMeta m).getKey "DC.description" = (if m.DCDescription = "" then none else some (.str m.DCDescription)) ∧
    (marshalMeta m).getKey "DC.identifier" = (if m.DCIdentifier = "" then none else some (.str m.DCIdentifier)) := by
  refine ⟨?_, ?_, ?_, ?_, ?_, ?_, ?_, ?_, ?_, ?_⟩ <;>
    simp [marshalMeta, JSON.getKey, omitStr, omitInt, omitFloat, omitBool, omitList, reqList]

/-- Field-presence law for the `TokenFeatures` encoder. -/
theorem presence_marshalTokenFeatures (f : TokenFeatures) :
    (marshalTokenFeatures f).getKey "overt" = (if f.Overt = false then none else some (.bool f.Overt)) ∧
    (marshalTokenFeatures f).getKey "stop" = (if f.Stop = false then none else some (.bool f.Stop)) ∧
    (marshalTokenFeatures f).getKey "alpha" = (if f.Alpha = false then none else some (.bool f.Alpha)) ∧
    (marshalTokenFeatures f).getKey "number" = (if f.Number = 0 then none else some (.int f.Number)) ∧
    (marshalTokenFeatures f).getKey "gender" = (if f.Gender = "" then none else some (.str f.Gender)) ∧
    (marshalTokenFeatures f).getKey "person" = (if f.Person = 0 then none else some (.int f.Person)) ∧
    (marshalTokenFeatures f).getKey "tense" = (if f.Tense = "" then none else some (.str f.Tense)) ∧
    (marshalTokenFeatures f).getKey "perfect" = (if f.Perfect = false then none else some (.bool f.Perfect)) ∧
    (marshalTokenFeatures f).getKey "continuous" = (if f.Continuous = false then none else some (.bool f.Continuous)) ∧
    (marshalTokenFeatures f).getKey "case" = (if f.Case = "" then none else some (.str f.Case)) ∧
    (marshalTokenFeatures f).getKey "human" = (if f.Human = false then none else some (.bool f.Human)) ∧
    (marshalTokenFeatures f).getKey "animate" = (if f.Animate = false then none else some (.bool f.Animate)) ∧
    (marshalTokenFeatures f).getKey "negated" = (if f.Negated = false then none else some (.bool f.Negated)) ∧
    (marshalTokenFeatures f).getKey "countable" = (if f.Countable = false then none else some (.bool f.Countable)) ∧
    (marshalTokenFeatures f).getKey "factive" = (if f.Factive = false then none else some (.bool f.Factive)) ∧
    (marshalTokenFeatures f).getKey "counterfactive" = (if f.Counterfactive = false then none else some (.bool f.Counterfactive)) ∧
    (marshalTokenFeatures f).getKey "irregular" = (if f.Irregular = false then none else some (.bool f.Irregular)) ∧
    (marshalTokenFeatures f).getKey "phrasalVerb" = (if f.PhrasalVerb = false then none else some (.bool f.PhrasalVerb)) ∧
    (marshalTokenFeatures f).getKey "mood" = (if f.Mood = "" then none else some (.str f.Mood)) ∧
    (marshalTokenFeatures f).getKey "foreign" = (if f.Foreign = false then none else some (.bool f.Foreign)) ∧
    (marshalTokenFeatures f).getKey "spaceAfter" = (if f.SpaceAfter = false then none else some (.bool f.SpaceAfter)) := by
  refine ⟨?_, ?_, ?_, ?_, ?_, ?_, ?_, ?_, ?_, ?_, ?_, ?_, ?_, ?_, ?_, ?_, ?_, ?_, ?_, ?_, ?_⟩ <;>
    simp [marshalTokenFeatures, JSON.getKey, omitStr, omitInt, omitFloat, omitBool, omitList, reqList]

/-- Field-presence law for the `TokenList` encoder. -/
theorem presence_marshalTokenList (t : TokenList) :
    (marshalTokenList t).getKey "id" = some (.int t.ID) ∧
    (marshalTokenList t).getKey "sentence_id" = some (.int t.SentenceID) ∧
    (marshalTokenList t).getKey "text" = some (.str t.Text) ∧
    (marshalTokenList t).getKey "lemma" = (if t.Lemma = "" then none else some (.str t.Lemma)) ∧
    (marshalTokenList t).getKey "xpos" = (if t.XPoS = "" then none else some (.str t.XPoS)) ∧
    (marshalTokenList t).getKey "xpos_prob" = (if t.XPoSProbability = GoFloat.finite 0 then none else some (.float t.XPoSProbability)) ∧
    (marshalTokenList t).getKey "upos" = (if t.UPoS = "" then none else some (.str t.UPoS)) ∧
    (marshalTokenList t).getKey "upos_prob" = (if t.UPoSProbability = GoFloat.finite 0 then none else some (.float t.UPoSProbability)) ∧
    (marshalTokenList t).getKey "entity_iob" = (if t.EntityIOB = "" then none else some (.str t.EntityIOB)) ∧
    (marshalTokenList t).getKey "characterOffsetBegin" = (if t.CharacterOffsetBegin = 0 then none else some (.int t.CharacterOffsetBegin)) ∧
    (marshalTokenList t).getKey "characterOffsetEnd" = (if t.CharacterOffsetEnd = 0 then none else some (.int t.CharacterOffsetEnd)) ∧
    (marshalTokenList t).getKey "propID" = (if t.PropID = "" then none else some (.str t.PropID)) ∧
    (marshalTokenList t).getKey "propIDProbability" = (if t.PropIDProbability = GoFloat.finite 0 then none else some (.float t.PropIDProbability)) ∧
    (marshalTokenList t).getKey "lang" = (if t.Lang = "" then none else some (.str t.Lang)) ∧
    (marshalTokenList t).getKey "features" = some (marshalTokenFeatures t.Features) ∧
    (marshalTokenList t).getKey "shape" = (if t.Shape = "" then none else some (.str t.Shape)) ∧
    (marshalTokenList t).getKey "entity" = (if t.Entity = "" then none else some (.str t.Entity)) ∧
    (marshalTokenList t).getKey "frameID" = none ∧
    (marshalTokenList t).getKey "wordNetID" = none ∧
    (marshalTokenList t).getKey "verbNetID" = none := by
  refine ⟨?_, ?_, ?_, ?_, ?_, ?_, ?_, ?_, ?_, ?_, ?_, ?_, ?_, ?_, ?_, ?_, ?_, ?_, ?_, ?_⟩ <;>
    simp [marshalTokenList, JSON.getKey, omitStr, omitInt, omitFloat, omitBool, omitList, reqList]

/-- Field-presence law for the `Sentence` encoder. -/
theorem presence_marshalSentence (s : Sentence) :
    (marshalSentence s).getKey "id" = some (.int s.ID) ∧
    (marshalSentence s).getKey "tokenFrom" = (if s.TokenFrom = 0 then none else some (.int s.TokenFrom)) ∧
    (marshalSentence s).getKey "tokenTo" = (if s.TokenTo = 0 then none else some (.int s.TokenTo)) ∧
    (marshalSentence s).getKey "tokens" = (if s.Tokens = [] then none else some (.arr (s.Tokens.map JSON.int))) ∧
    (marshalSentence s).getKey "clauses" = (if s.Clauses = [] then none else some (.arr (s.Clauses.map JSON.int))) ∧
    (marshalSentence s).getKey "type" = (if s.Typ = "" then none else some (.str s.Typ)) ∧
    (marshalSentence s).getKey "sentiment" = (if s.Sentiment = "" then none else some (.str s.Sentiment)) ∧
    (marshalSentence s).getKey "sentimentProb" = (if s.SentimentProbability = GoFloat.finite 0 then none else some (.float s.SentimentProbability)) := by
  refine ⟨?_, ?_, ?_, ?_, ?_, ?_, ?_, ?_⟩ <;>
    simp [marshalSentence, JSON.getKey, omitStr, omitInt, omitFloat, omitBool, omitList, reqList]

/-- Field-presence law for the `Clause` encoder. -/
theorem presence_marshalClause (c : Clause) :
    (marshalClause c).getKey "id" = some (.int c.ID) ∧
    (marshalClause c).getKey "sentenceID" = some (.int c.SentenceID) ∧
    (marshalClause c).getKey "tokenFrom" = (if c.TokenFrom = 0 then none else some (.int c.TokenFrom)) ∧
    (marshalClause c).getKey "tokenTo" = (if c.TokenTo = 0 then none else some (.int c.TokenTo)) ∧
    (marshalClause c).getKey "tokens" = (if c.Tokens = [] then none else some (.arr (c.Tokens.map JSON.int))) ∧
    (marshalClause c).getKey "main" = (if c.Main = false then none else some (.bool c.Main)) ∧
    (marshalClause c).getKey "gov" = (if c.Governor = 0 then none else some (.int c.Governor)) ∧
    (marshalClause c).getKey "head" = (if c.Head = 0 then none else some (.int c.Head)) ∧
    (marshalClause c).getKey "neg" = (if c.Negation = false then none else some (.bool c.Negation)) ∧
    (marshalClause c).getKey "tense" = (if c.Tense = "" then none else some (.str c.Tense)) ∧
    (marshalClause c).getKey "voice" = (if c.Voice = "" then none else some (.str c.Voice)) ∧
    (marshalClause c).getKey "mood" = (if c.Mood = "" then none else some (.str c.Mood)) ∧
    (marshalClause c).getKey "sentiment" = (if c.Sentiment = "" then none else some (.str c.Sentiment)) ∧
    (marshalClause c).getKey "sentimentProb" = (if c.SentimentProbability = GoFloat.finite 0 then none else some (.float c.SentimentProbability)) := by
  refine ⟨?_, ?_, ?_, ?_, ?_, ?_, ?_, ?_, ?_, ?_, ?_, ?_, ?_, ?_⟩ <;>
    simp [marshalClause, JSON.getKey, omitStr, omitInt, omitFloat, omitBool, omitList, reqList]

/-- Field-presence law for the `Dependency` encoder. -/
theorem presence_marshalDependency (dp : Dependency) :
    (marshalDependency dp).getKey "lab" = some (.str dp.Label) ∧
    (marshalDependency dp).getKey "gov" = some (.int dp.Governor) ∧
    (marshalDependency dp).getKey "dep" = some (.int dp.Dependent) ∧
    (marshalDependency dp).getKey "prob" = (if dp.Probability = GoFloat.finite 0 then none else some (.float dp.Probability)) := by
  refine ⟨?_, ?_, ?_, ?_⟩ <;>
    simp [marshalDependency, JSON.getKey, omitStr, omitInt, omitFloat, omitBool, omitList, reqList]

/-- Field-presence law for the `DependencyTree` encoder. -/
theorem presence_marshalDependencyTree (dt : DependencyTree) :
    (marshalDependencyTree dt).getKey "sentenceID" = some (.int dt.SentenceID) ∧
    (marshalDependencyTree dt).getKey "style" = (if dt.Style = "" then none else some (.str dt.Style)) ∧
    (marshalDependencyTree dt).getKey "dependencies" = (if dt.Dependencies = [] then none else some (.arr (dt.Dependencies.map marshalDependency))) ∧
    (marshalDependencyTree dt).getKey "prob" = (if dt.Probability = GoFloat.finite 0 then none else some (.float dt.Probability)) := by
  refine ⟨?_, ?_, ?_, ?_⟩ <;>
    simp [marshalDependencyTree, JSON.getKey, omitStr, omitInt, omitFloat, omitBool, omitList, reqList]

/-- Field-presence law for the `CoreferenceRepresentantive` encoder. -/
theorem presence_marshalCoreferenceRepresentantive (cr : CoreferenceRepresentantive) :
    (marshalCoreferenceRepresentantive cr).getKey "tokens" = some (if cr.Tokens = [] then JSON.null else .arr (cr.Tokens.map JSON.int)) ∧
    (marshalCoreferenceRepresentantive cr).getKey "head" = (if cr.Head = 0 then none else some (.int cr.Head)) := by
  refine ⟨?_, ?_⟩ <;>
    simp [marshalCoreferenceRepresentantive, JSON.getKey, omitStr, omitInt, omitFloat, omitBool, omitList, reqList]

/-- Field-presence law for the `CoreferenceReferents` encoder. -/
theorem presence_marshalCoreferenceReferents (cf : CoreferenceReferents) :
    (marshalCoreferenceReferents cf).getKey "tokens" = some (if cf.Tokens = [] then JSON.null else .arr (cf.Tokens.map JSON.int)) ∧
    (marshalCoreferenceReferents cf).getKey "head" = (if cf.Head = 0 then none else some (.int cf.Head)) ∧
    (marshalCoreferenceReferents cf).getKey "prob" = (if cf.Probability = GoFloat.finite 0 then none else some (.float cf.Probability)) := by
  refine ⟨?_, ?_, ?_⟩ <;>
    simp [marshalCoreferenceReferents, JSON.getKey, omitStr, omitInt, omitFloat, omitBool, omitList, reqList]

/-- Field-presence law for the `Coreference` encoder. -/
theorem presence_marshalCoreference (co : Coreference) :
    (marshalCoreference co).getKey "id" = some (.int co.ID) ∧
    (marshalCoreference co).getKey "representative" = some (marshalCoreferenceRepresentantive co.Representative) ∧
    (marshalCoreference co).getKey "referents" = some (if co.Referents = [] then JSON.null else .arr (co.Referents.map marshalCoreferenceReferents)) := by
  refine ⟨?_, ?_, ?_⟩ <;>
    simp [marshalCoreference, JSON.getKey, omitStr, omitInt, omitFloat, omitBool, omitList, reqList]

/-- Field-presence law for the `Scope` encoder. -/
theorem presence_marshalScope (sc : Scope) :
    (marshalScope sc).getKey "id" = some (.int sc.ID) ∧
    (marshalScope sc).getKey "gov" = some (if sc.Governor = [] then JSON.null else .arr (sc.Governor.map JSON.int)) ∧
    (marshalScope sc).getKey "dep" = (if sc.Dependents = [] then none else some (.arr (sc.Dependents.map JSON.int))) ∧
    (marshalScope sc).getKey "terminals" = (if sc.Terminals = [] then none else some (.arr (sc.Terminals.map JSON.int))) := by
  refine ⟨?_, ?_, ?_, ?_⟩ <;>
    simp [marshalScope, JSON.getKey, omitStr, omitInt, omitFloat, omitBool, omitList, reqList]

/-- Field-presence law for the `ConstituentParse` encoder. -/
theorem presence_marshalConstituentParse (cp : ConstituentParse) :
    (marshalConstituentParse cp).getKey "sentenceId" = some (.int cp.SentenceID) ∧
    (marshalConstituentParse cp).getKey "type" = (if cp.Typ = "" then none else some (.str cp.Typ)) ∧
    (marshalConstituentParse cp).getKey "labeledBracketing" = some (.str cp.LabeledBracketing) ∧
    (marshalConstituentParse cp).getKey "prob" = (if cp.Probability = GoFloat.finite 0 then none else some (.float cp.Probability)) ∧
    (marshalConstituentParse cp).getKey "scopes" = (if cp.Scopes = [] then none else some (.arr (cp.Scopes.map marshalScope))) := by
  refine ⟨?_, ?_, ?_, ?_, ?_⟩ <;>
    simp [marshalConstituentParse, JSON.getKey, omitStr, omitInt, omitFloat, omitBool, omitList, reqList]

/-- Field-presence law for the `Expression` encoder. -/
theorem presence_marshalExpression (ex : Expression) :
    (marshalExpression ex).getKey "id" = some (.int ex.ID) ∧
    (marshalExpression ex).getKey "type" = (if ex.Typ = "" then none else some (.str ex.Typ)) ∧
    (marshalExpression ex).getKey "head" = (if ex.Head = 0 then none else some (.int ex.Head)) ∧
    (marshalExpression ex).getKey "dependency" = (if ex.Dependency = "" then none else some (.str ex.Dependency)) ∧
    (marshalExpression ex).getKey "tokenFrom" = (if ex.TokenFrom = 0 then none else some (.int ex.TokenFrom)) ∧
    (marshalExpression ex).getKey "tokenTo" = (if ex.TokenTo = 0 then none else some (.int ex.TokenTo)) ∧
    (marshalExpression ex).getKey "tokens" = some (if ex.Tokens = [] then JSON.null else .arr (ex.Tokens.map JSON.int)) ∧
    (marshalExpression ex).getKey "prob" = (if ex.Probability = GoFloat.finite 0 then none else some (.float ex.Probability)) := by
  refine ⟨?_, ?_, ?_, ?_, ?_, ?_, ?_, ?_⟩ <;>
    simp [marshalExpression, JSON.getKey, omitStr, omitInt, omitFloat, omitBool, omitList, reqList]

/-- Field-presence law for the `Paragraph` encoder. -/
theorem presence_marshalParagraph (pg : Paragraph) :
    (marshalParagraph pg).getKey "id" = some (.int pg.ID) ∧
    (marshalParagraph pg).getKey "tokenFrom" = (if pg.TokenFrom = 0 then none else some (.int pg.TokenFrom)) ∧
    (marshalParagraph pg).getKey "tokenTo" = (if pg.TokenTo = 0 then none else some (.int pg.TokenTo)) ∧
    (marshalParagraph pg).getKey "tokens" = (if pg.Tokens = [] then none else some (.arr (pg.Tokens.map JSON.int))) ∧
    (marshalParagraph pg).getKey "sentences" = (if pg.Sentences = [] then none else some (.arr (pg.Sentences.map JSON.int))) := by
  refine ⟨?_, ?_, ?_, ?_, ?_⟩ <;>
    simp [marshalParagraph, JSON.getKey, omitStr, omitInt, omitFloat, omitBool, omitList, reqList]

/-- Field-presence law for the `Attribute` encoder. -/
theorem presence_marshalAttribute (ab : Attribute) :
    (marshalAttribute ab).getKey "lab" = some (.str ab.Label) ∧
    (marshalAttribute ab).getKey "val" = some (.str ab.Value) := by
  refine ⟨?_, ?_⟩ <;>
    simp [marshalAttribute, JSON.getKey, omitStr, omitInt, omitFloat, omitBool, omitList, reqList]

/-- Field-presence law for the `Entity` encoder. -/
theorem presence_marshalEntity (e : Entity) :
    (marshalEntity e).getKey "id" = some (.int e.ID) ∧
    (marshalEntity e).getKey "label" = some (.str e.Label) ∧
    (marshalEntity e).getKey "type" = some (.str e.Typ) ∧
    (marshalEntity e).getKey "sentiment" = (if e.Sentiment = "" then none else some (.str e.Sentiment)) ∧
    (marshalEntity e).getKey "sentimentProb" = (if e.SentimentProbability = GoFloat.finite 0 then none else some (.float e.SentimentProbability)) ∧
    (marshalEntity e).getKey "attributes" = some (if e.Attributes = [] then JSON.null else .arr (e.Attributes.map marshalAttribute)) := by
  refine ⟨?_, ?_, ?_, ?_, ?_, ?_⟩ <;>
    simp [marshalEntity, JSON.getKey, omitStr, omitInt, omitFloat, omitBool, omitList, reqList]

/-- Field-presence law for the `Relation` encoder. -/
theorem presence_marshalRelation (r : Relation) :
    (marshalRelation r).getKey "id" = some (.int r.ID) ∧
    (marshalRelation r).getKey "label" = some (.str r.Label) ∧
    (marshalRelation r).getKey "type" = some (.str r.Typ) ∧
    (marshalRelation r).getKey "sentiment" = (if r.Sentiment = "" then none else some (.str r.Sentiment)) ∧
    (marshalRelation r).getKey "sentimentProb" = (if r.SentimentProbability = GoFloat.finite 0 then none else some (.float r.SentimentProbability)) ∧
    (marshalRelation r).getKey "attributes" = some (if r.Attributes = [] then JSON.null else .arr (r.Attributes.map marshalAttribute)) := by
  refine ⟨?_, ?_, ?_, ?_, ?_, ?_⟩ <;>
    simp [marshalRelation, JSON.getKey, omitStr, omitInt, omitFloat, omitBool, omitList, reqList]

/-- Field-presence law for the `Triple` encoder. -/
theorem presence_marshalTriple (tr : Triple) :
    (marshalTriple tr).getKey "fromEntity" = some (.int tr.FromEntity) ∧
    (marshalTriple tr).getKey "toEntity" = some (.int tr.ToEntity) ∧
    (marshalTriple tr).getKey "rel" = some (.int tr.Relation) ∧
    (marshalTriple tr).getKey "clauseID" = (if tr.ClauseID = 0 then none else some (.int tr.ClauseID)) ∧
    (marshalTriple tr).getKey "sentenceID" = (if tr.SentenceID = 0 then none else some (.int tr.SentenceID)) ∧
    (marshalTriple tr).getKey "directional" = (if tr.Directional = false then none else some (.bool tr.Directional)) ∧
    (marshalTriple tr).getKey "eventID" = (if tr.EventID = 0 then none else some (.int tr.EventID)) ∧
    (marshalTriple tr).getKey "tempSeq" = (if tr.TemporalSequence = 0 then none else some (.int tr.TemporalSequence)) ∧
    (marshalTriple tr).getKey "prob" = (if tr.Probability = GoFloat.finite 0 then none else some (.float tr.Probability)) ∧
    (marshalTriple tr).getKey "syntactic" = (if tr.Syntactic = false then none else some (.bool tr.Syntactic)) ∧
    (marshalTriple tr).getKey "implied" = (if tr.Implied = false then none else some (.bool tr.Implied)) ∧
    (marshalTriple tr).getKey "presupposed" = (if tr.Presupposed = false then none else some (.bool tr.Presupposed)) := by
  refine ⟨?_, ?_, ?_, ?_, ?_, ?_, ?_, ?_, ?_, ?_, ?_, ?_⟩ <;>
    simp [marshalTriple, JSON.getKey, omitStr, omitInt, omitFloat, omitBool, omitList, reqList]

/-- Field-presence law for the `Document` encoder. -/
theorem presence_marshalDocument (doc : Document) :
    (marshalDocument doc).getKey "meta" = some (marshalMeta doc.MetaDocument) ∧
    (marshalDocument doc).getKey "id" = some (.int doc.ID) ∧
    (marshalDocument doc).getKey "tokenList" = (if doc.TokenList = [] then none else some (.arr (doc.TokenList.map marshalTokenList))) ∧
    (marshalDocument doc).getKey "clauses" = (if doc.Clauses = [] then none else some (.arr (doc.Clauses.map marshalClause))) ∧
    (marshalDocument doc).getKey "sentences" = (if doc.Sentences = [] then none else some (.arr (doc.Sentences.map marshalSentence))) ∧
    (marshalDocument doc).getKey "paragraphs" = (if doc.Paragraphs = [] then none else some (.arr (doc.Paragraphs.map marshalParagraph))) ∧
    (marshalDocument doc).getKey "dependencyTrees" = (if doc.DependencyTrees = [] then none else some (.arr (doc.DependencyTrees.map marshalDependencyTree))) ∧
    (marshalDocument doc).getKey "coreferences" = (if doc.Coreferences = [] then none else some (.arr (doc.Coreferences.map marshalCoreference))) ∧
    (marshalDocument doc).getKey "constituents" = (if doc.Constituents = [] then none else some (.arr (doc.Constituents.map marshalConstituentParse))) ∧
    (marshalDocument doc).getKey "expressions" = (if doc.Expressions = [] then none else some (.arr (doc.Expressions.map marshalExpression))) ∧
    (marshalDocument doc).getKey "entities" = (if doc.Entities = [] then none else some (.arr (doc.Entities.map marshalEntity))) ∧
    (marshalDocument doc).getKey "relations" = (if doc.Relations = [] then none else some (.arr (doc.Relations.map marshalRelation))) ∧
    (marshalDocument doc).getKey "triples" = (if doc.Triples = [] then none else some (.arr (doc.Triples.map marshalTriple))) := by
  refine ⟨?_, ?_, ?_, ?_, ?_, ?_, ?_, ?_, ?_, ?_, ?_, ?_, ?_⟩ <;>
    simp [marshalDocument, JSON.getKey, omitStr, omitInt, omitFloat, omitBool, omitList, reqList]

/-- Field-presence law for the `JSONNLP` encoder. -/
theorem presence_marshalJSONNLP (d : JSONNLP) :
    (marshalJSONNLP d).getKey "meta" = some (marshalMeta d.MetaData) ∧
    (marshalJSONNLP d).getKey "documents" = (if d.Documents = [] then none else some (.arr (d.Documents.map marshalDocument))) := by
  refine ⟨?_, ?_⟩ <;>
    simp [marshalJSONNLP, JSON.getKey, omitStr, omitInt, omitFloat, omitBool, omitList, reqList]

/-- The spec's omission-law scenario: a token confidence of 0.87 appears
under wire key `"xpos_prob"` with that exact value, and a confidence of
0.0 omits the key. -/
theorem presence_scenario_087 :
    (marshalTokenList token087).getKey "xpos_prob" =
      some (.float (.finite (87 / 100))) ∧
    (marshalTokenList tokenJohn).getKey "xpos_prob" = none := by
  refine ⟨?_, ?_⟩ <;>
    simp [marshalTokenList, JSON.getKey, omitStr, omitInt, omitFloat, token087, tokenJohn]

/-- C2 as amended: the field-presence law of `GetJSON` for every record
type and every field of the v0.8 schema.  The mandatory core is always
present with its exact value; every primitive-typed field carrying the
`omitempty` marker (strings, numbers, booleans and lists) is absent
exactly when it holds its type's zero value and otherwise present with
its exact value under the correct wire name — in particular a token
confidence of 0.87 appears under `"xpos_prob"` and a confidence of 0.0
omits that key.  The exceptions the code forces, each exhibited by the
counterexample: struct-typed fields (corpus/document `meta`, token
`features`, coreference `representative`) are always emitted even when
all-zero, because the encoder's omission rule never applies to a nested
record; fields declared without `omitempty` (`DC.created`, dependency
`lab`/`gov`/`dep`, `labeledBracketing`, the mention/expression/scope
token lists, `attributes`, …) are always emitted, a zero-valued (nil)
slice among them appearing as `null`; and the six tag-conflicted v0.8
token fields are never emitted, even when non-zero. -/
theorem omission_law_v08 (m : Meta) (f : TokenFeatures) (t : TokenList) (s : Sentence) (c : Clause) (dp : Dependency) (dt : DependencyTree) (cr : CoreferenceRepresentantive) (cf : CoreferenceReferents) (co : Coreference) (sc : Scope) (cp : ConstituentParse) (ex : Expression) (pg : Paragraph) (ab : Attribute) (e : Entity) (r : Relation) (tr : Triple) (doc : Document) (d : JSONNLP) :
    ((marshalMeta m).getKey "DC.conformsTo" = some (.str m.DCConformsTo) ∧
     (marshalMeta m).getKey "DC.created" = some (.str m.DCCreated) ∧
     (marshalMeta m).getKey "DC.date" = (if m.DCDate = "" then none else some (.str m.DCDate)) ∧
     (marshalMeta m).getKey "DC.source" = (if m.DCSource = "" then none else some (.str m.DCSource)) ∧
     (marshalMeta m).getKey "DC.language" = (if m.DCLanguage = "" then none else some (.str m.DCLanguage)) ∧
     (marshalMeta m).getKey "DC.creator" = (if m.DCCreator = "" then none else some (.str m.DCCreator)) ∧
     (marshalMeta m).getKey "DC.publisher" = (if m.DCPublisher = "" then none else some (.str m.DCPublisher)) ∧
     (marshalMeta m).getKey "DC.title" = (if m.DCTitle = "" then none else some (.str m.DCTitle)) ∧
     (marshalMeta m).getKey "DC.description" = (if m.DCDescription = "" then none else some (.str m.DCDescription)) ∧
     (marshalMeta m).getKey "DC.identifier" = (if m.DCIdentifier = "" then none else some (.str m.DCIdentifier))) ∧
    ((marshalTokenFeatures f).getKey "overt" = (if f.Overt = false then none else some (.bool f.Overt)) ∧
     (marshalTokenFeatures f).getKey "stop" = (if f.Stop = false then none else some (.bool f.Stop)) ∧
     (marshalTokenFeatures f).getKey "alpha" = (if f.Alpha = false then none else some (.bool f.Alpha)) ∧
     (marshalTokenFeatures f).getKey "number" = (if f.Number = 0 then none else some (.int f.Number)) ∧
     (marshalTokenFeatures f).getKey "gender" = (if f.Gender = "" then none else some (.str f.Gender)) ∧
     (marshalTokenFeatures f).getKey "person" = (if f.Person = 0 then none else some (.int f.Person)) ∧
     (marshalTokenFeatures f).getKey "tense" = (if f.Tense = "" then none else some (.str f.Tense)) ∧
     (marshalTokenFeatures f).getKey "perfect" = (if f.Perfect = false then none else some (.bool f.Perfect)) ∧
     (marshalTokenFeatures f).getKey "continuous" = (if f.Continuous = false then none else some (.bool f.Continuous)) ∧
     (marshalTokenFeatures f).getKey "case" = (if f.Case = "" then none else some (.str f.Case)) ∧
     (marshalTokenFeatures f).getKey "human" = (if f.Human = false then none else some (.bool f.Human)) ∧
     (marshalTokenFeatures f).getKey "animate" = (if f.Animate = false then none else some (.bool f.Animate)) ∧
     (marshalTokenFeatures f).getKey "negated" = (if f.Negated = false then none else some (.bool f.Negated)) ∧
     (marshalTokenFeatures f).getKey "countable" = (if f.Countable = false then none else some (.bool f.Countable)) ∧
     (marshalTokenFeatures f).getKey "factive" = (if f.Factive = false then none else some (.bool f.Factive)) ∧
     (marshalTokenFeatures f).getKey "counterfactive" = (if f.Counterfactive = false then none else some (.bool f.Counterfactive)) ∧
     (marshalTokenFeatures f).getKey "irregular" = (if f.Irregular = false then none else some (.bool f.Irregular)) ∧
     (marshalTokenFeatures f).getKey "phrasalVerb" = (if f.PhrasalVerb = false then none else some (.bool f.PhrasalVerb)) ∧
     (marshalTokenFeatures f).getKey "mood" = (if f.Mood = "" then none else some (.str f.Mood)) ∧
     (marshalTokenFeatures f).getKey "foreign" = (if f.Foreign = false then none else some (.bool f.Foreign)) ∧
     (marshalTokenFeatures f).getKey "spaceAfter" = (if f.SpaceAfter = false then none else some (.bool f.SpaceAfter))) ∧
    ((marshalTokenList t).getKey "id" = some (.int t.ID) ∧
     (marshalTokenList t).getKey "sentence_id" = some (.int t.SentenceID) ∧
     (marshalTokenList t).getKey "text" = some (.str t.Text) ∧
     (marshalTokenList t).getKey "lemma" = (if t.Lemma = "" then none else some (.str t.Lemma)) ∧
     (marshalTokenList t).getKey "xpos" = (if t.XPoS = "" then none else some (.str t.XPoS)) ∧
     (marshalTokenList t).getKey "xpos_prob" = (if t.XPoSProbability = GoFloat.finite 0 then none else some (.float t.XPoSProbability)) ∧
     (marshalTokenList t).getKey "upos" = (if t.UPoS = "" then none else some (.str t.UPoS)) ∧
     (marshalTokenList t).getKey "upos_prob" = (if t.UPoSProbability = GoFloat.finite 0 then none else some (.float t.UPoSProbability)) ∧
     (marshalTokenList t).getKey "entity_iob" = (if t.EntityIOB = "" then none else some (.str t.EntityIOB)) ∧
     (marshalTokenList t).getKey "characterOffsetBegin" = (if t.CharacterOffsetBegin = 0 then none else some (.int t.CharacterOffsetBegin)) ∧
     (marshalTokenList t).getKey "characterOffsetEnd" = (if t.CharacterOffsetEnd = 0 then none else some (.int t.CharacterOffsetEnd)) ∧
     (marshalTokenList t).getKey "propID" = (if t.PropID = "" then none else some (.str t.PropID)) ∧
     (marshalTokenList t).getKey "propIDProbability" = (if t.PropIDProbability = GoFloat.finite 0 then none else some (.float t.PropIDProbability)) ∧
     (marshalTokenList t).getKey "lang" = (if t.Lang = "" then none else some (.str t.Lang)) ∧
     (marshalTokenList t).getKey "features" = some (marshalTokenFeatures t.Features) ∧
     (marshalTokenList t).getKey "shape" = (if t.Shape = "" then none else some (.str t.Shape)) ∧
     (marshalTokenList t).getKey "entity" = (if t.Entity = "" then none else some (.str t.Entity)) ∧
     (marshalTokenList t).getKey "frameID" = none ∧
     (marshalTokenList t).getKey "wordNetID" = none ∧
     (marshalTokenList t).getKey "verbNetID" = none) ∧
    ((marshalSentence s).getKey "id" = some (.int s.ID) ∧
     (marshalSentence s).getKey "tokenFrom" = (if s.TokenFrom = 0 then none else some (.int s.TokenFrom)) ∧
     (marshalSentence s).getKey "tokenTo" = (if s.TokenTo = 0 then none else some (.int s.TokenTo)) ∧
     (marshalSentence s).getKey "tokens" = (if s.Tokens = [] then none else some (.arr (s.Tokens.map JSON.int))) ∧
     (marshalSentence s).getKey "clauses" = (if s.Clauses = [] then none else some (.arr (s.Clauses.map JSON.int))) ∧
     (marshalSentence s).getKey "type" = (if s.Typ = "" then none else some (.str s.Typ)) ∧
     (marshalSentence s).getKey "sentiment" = (if s.Sentiment = "" then none else some (.str s.Sentiment)) ∧
     (marshalSentence s).getKey "sentimentProb" = (if s.SentimentProbability = GoFloat.finite 0 then none else some (.float s.SentimentProbability))) ∧
    ((marshalClause c).getKey "id" = some (.int c.ID) ∧
     (marshalClause c).getKey "sentenceID" = some (.int c.SentenceID) ∧
     (marshalClause c).getKey "tokenFrom" = (if c.TokenFrom = 0 then none else some (.int c.TokenFrom)) ∧
     (marshalClause c).getKey "tokenTo" = (if c.TokenTo = 0 then none else some (.int c.TokenTo)) ∧
     (marshalClause c).getKey "tokens" = (if c.Tokens = [] then none else some (.arr (c.Tokens.map JSON.int))) ∧
     (marshalClause c).getKey "main" = (if c.Main = false then none else some (.bool c.Main)) ∧
     (marshalClause c).getKey "gov" = (if c.Governor = 0 then none else some (.int c.Governor)) ∧
     (marshalClause c).getKey "head" = (if c.Head = 0 then none else some (.int c.Head)) ∧
     (marshalClause c).getKey "neg" = (if c.Negation = false then none else some (.bool c.Negation)) ∧
     (marshalClause c).getKey "tense" = (if c.Tense = "" then none else some (.str c.Tense)) ∧
     (marshalClause c).getKey "voice" = (if c.Voice = "" then none else some (.str c.Voice)) ∧
     (marshalClause c).getKey "mood" = (if c.Mood = "" then none else some (.str c.Mood)) ∧
     (marshalClause c).getKey "sentiment" = (if c.Sentiment = "" then none else some (.str c.Sentiment)) ∧
     (marshalClause c).getKey "sentimentProb" = (if c.SentimentProbability = GoFloat.finite 0 then none else some (.float c.SentimentProbability))) ∧
    ((marshalDependency dp).getKey "lab" = some (.str dp.Label) ∧
     (marshalDependency dp).getKey "gov" = some (.int dp.Governor) ∧
     (marshalDependency dp).getKey "dep" = some (.int dp.Dependent) ∧
     (marshalDependency dp).getKey "prob" = (if dp.Probability = GoFloat.finite 0 then none else some (.float dp.Probability))) ∧
    ((marshalDependencyTree dt).getKey "sentenceID" = some (.int dt.SentenceID) ∧
     (marshalDependencyTree dt).getKey "style" = (if dt.Style = "" then none else some (.str dt.Style)) ∧
     (marshalDependencyTree dt).getKey "dependencies" = (if dt.Dependencies = [] then none else some (.arr (dt.Dependencies.map marshalDependency))) ∧
     (marshalDependencyTree dt).getKey "prob" = (if dt.Probability = GoFloat.finite 0 then none else some (.float dt.Probability))) ∧
    ((marshalCoreferenceRepresentantive cr).getKey "tokens" = some (if cr.Tokens = [] then JSON.null else .arr (cr.Tokens.map JSON.int)) ∧
     (marshalCoreferenceRepresentantive cr).getKey "head" = (if cr.Head = 0 then none else some (.int cr.Head))) ∧
    ((marshalCoreferenceReferents cf).getKey "tokens" = some (if cf.Tokens = [] then JSON.null else .arr (cf.Tokens.map JSON.int)) ∧
     (marshalCoreferenceReferents cf).getKey "head" = (if cf.Head = 0 then none else some (.int cf.Head)) ∧
     (marshalCoreferenceReferents cf).getKey "prob" = (if cf.Probability = GoFloat.finite 0 then none else some (.float cf.Probability))) ∧
    ((marshalCoreference co).getKey "id" = some (.int co.ID) ∧
     (marshalCoreference co).getKey "representative" = some (marshalCoreferenceRepresentantive co.Representative) ∧
     (marshalCoreference co).getKey "referents" = some (if co.Referents = [] then JSON.null else .arr (co.Referents.map marshalCoreferenceReferents))) ∧
    ((marshalScope sc).getKey "id" = some (.int sc.ID) ∧
     (marshalScope sc).getKey "gov" = some (if sc.Governor = [] then JSON.null else .arr (sc.Governor.map JSON.int)) ∧
     (marshalScope sc).getKey "dep" = (if sc.Dependents = [] then none else some (.arr (sc.Dependents.map JSON.int))) ∧
     (marshalScope sc).getKey "terminals" = (if sc.Terminals = [] then none else some (.arr (sc.Terminals.map JSON.int)))) ∧
    ((marshalConstituentParse cp).getKey "sentenceId" = some (.int cp.SentenceID) ∧
     (marshalConstituentParse cp).getKey "type" = (if cp.Typ = "" then none else some (.str cp.Typ)) ∧
     (marshalConstituentParse cp).getKey "labeledBracketing" = some (.str cp.LabeledBracketing) ∧
     (marshalConstituentParse cp).getKey "prob" = (if cp.Probability = GoFloat.finite 0 then none else some (.float cp.Probability)) ∧
     (marshalConstituentParse cp).getKey "scopes" = (if cp.Scopes = [] then none else some (.arr (cp.Scopes.map marshalScope)))) ∧
    ((marshalExpression ex).getKey "id" = some (.int ex.ID) ∧
     (marshalExpression ex).getKey "type" = (if ex.Typ = "" then none else some (.str ex.Typ)) ∧
     (marshalExpression ex).getKey "head" = (if ex.Head = 0 then none else some (.int ex.Head)) ∧
     (marshalExpression ex).getKey "dependency" = (if ex.Dependency = "" then none else some (.str ex.Dependency)) ∧
     (marshalExpression ex).getKey "tokenFrom" = (if ex.TokenFrom = 0 then none else some (.int ex.TokenFrom)) ∧
     (marshalExpression ex).getKey "tokenTo" = (if ex.TokenTo = 0 then none else some (.int ex.TokenTo)) ∧
     (marshalExpression ex).getKey "tokens" = some (if ex.Tokens = [] then JSON.null else .arr (ex.Tokens.map JSON.int)) ∧
     (marshalExpression ex).getKey "prob" = (if ex.Probability = GoFloat.finite 0 then none else some (.float ex.Probability))) ∧
    ((marshalParagraph pg).getKey "id" = some (.int pg.ID) ∧
     (marshalParagraph pg).getKey "tokenFrom" = (if pg.TokenFrom = 0 then none else some (.int pg.TokenFrom)) ∧
     (marshalParagraph pg).getKey "tokenTo" = (if pg.TokenTo = 0 then none else some (.int pg.TokenTo)) ∧
     (marshalParagraph pg).getKey "tokens" = (if pg.Tokens = [] then none else some (.arr (pg.Tokens.map JSON.int))) ∧
     (marshalParagraph pg).getKey "sentences" = (if pg.Sentences = [] then none else some (.arr (pg.Sentences.map JSON.int)))) ∧
    ((marshalAttribute ab).getKey "lab" = some (.str ab.Label) ∧
     (marshalAttribute ab).getKey "val" = some (.str ab.Value)) ∧
    ((marshalEntity e).getKey "id" = some (.int e.ID) ∧
     (marshalEntity e).getKey "label" = some (.str e.Label) ∧
     (marshalEntity e).getKey "type" = some (.str e.Typ) ∧
     (marshalEntity e).getKey "sentiment" = (if e.Sentiment = "" then none else some (.str e.Sentiment)) ∧
     (marshalEntity e).getKey "sentimentProb" = (if e.SentimentProbability = GoFloat.finite 0 then none else some (.float e.SentimentProbability)) ∧
     (marshalEntity e).getKey "attributes" = some (if e.Attributes = [] then JSON.null else .arr (e.Attributes.map marshalAttribute))) ∧
    ((marshalRelation r).getKey "id" = some (.int r.ID) ∧
     (marshalRelation r).getKey "label" = some (.str r.Label) ∧
     (marshalRelation r).getKey "type" = some (.str r.Typ) ∧
     (marshalRelation r).getKey "sentiment" = (if r.Sentiment = "" then none else some (.str r.Sentiment)) ∧
     (marshalRelation r).getKey "sentimentProb" = (if r.SentimentProbability = GoFloat.finite 0 then none else some (.float r.SentimentProbability)) ∧
     (marshalRelation r).getKey "attributes" = some (if r.Attributes = [] then JSON.null else .arr (r.Attributes.map marshalAttribute))) ∧
    ((marshalTriple tr).getKey "fromEntity" = some (.int tr.FromEntity) ∧
     (marshalTriple tr).getKey "toEntity" = some (.int tr.ToEntity) ∧
     (marshalTriple tr).getKey "rel" = some (.int tr.Relation) ∧
     (marshalTriple tr).getKey "clauseID" = (if tr.ClauseID = 0 then none else some (.int tr.ClauseID)) ∧
     (marshalTriple tr).getKey "sentenceID" = (if tr.SentenceID = 0 then none else some (.int tr.SentenceID)) ∧
     (marshalTriple tr).getKey "directional" = (if tr.Directional = false then none else some (.bool tr.Directional)) ∧
     (marshalTriple tr).getKey "eventID" = (if tr.EventID = 0 then none else some (.int tr.EventID)) ∧
     (marshalTriple tr).getKey "tempSeq" = (if tr.TemporalSequence = 0 then none else some (.int tr.TemporalSequence)) ∧
     (marshalTriple tr).getKey "prob" = (if tr.Probability = GoFloat.finite 0 then none else some (.float tr.Probability)) ∧
     (marshalTriple tr).getKey "syntactic" = (if tr.Syntactic = false then none else some (.bool tr.Syntactic)) ∧
     (marshalTriple tr).getKey "implied" = (if tr.Implied = false then none else some (.bool tr.Implied)) ∧
     (marshalTriple tr).getKey "presupposed" = (if tr.Presupposed = false then none else some (.bool tr.Presupposed))) ∧
    ((marshalDocument doc).getKey "meta" = some (marshalMeta doc.MetaDocument) ∧
     (marshalDocument doc).getKey "id" = some (.int doc.ID) ∧
     (marshalDocument doc).getKey "tokenList" = (if doc.TokenList = [] then none else some (.arr (doc.TokenList.map marshalTokenList))) ∧
     (marshalDocument doc).getKey "clauses" = (if doc.Clauses = [] then none else some (.arr (doc.Clauses.map marshalClause))) ∧
     (marshalDocument doc).getKey "sentences" = (if doc.Sentences = [] then none else some (.arr (doc.Sentences.map marshalSentence))) ∧
     (marshalDocument doc).getKey "paragraphs" = (if doc.Paragraphs = [] then none else some (.arr (doc.Paragraphs.map marshalParagraph))) ∧
     (marshalDocument doc).getKey "dependencyTrees" = (if doc.DependencyTrees = [] then none else some (.arr (doc.DependencyTrees.map marshalDependencyTree))) ∧
     (marshalDocument doc).getKey "coreferences" = (if doc.Coreferences = [] then none else some (.arr (doc.Coreferences.map marshalCoreference))) ∧
     (marshalDocument doc).getKey "constituents" = (if doc.Constituents = [] then none else some (.arr (doc.Constituents.map marshalConstituentParse))) ∧
     (marshalDocument doc).getKey "expressions" = (if doc.Expressions = [] then none else some (.arr (doc.Expressions.map marshalExpression))) ∧
     (marshalDocument doc).getKey "entities" = (if doc.Entities = [] then none else some (.arr (doc.Entities.map marshalEntity))) ∧
     (marshalDocument doc).getKey "relations" = (if doc.Relations = [] then none else some (.arr (doc.Relations.map marshalRelation))) ∧
     (marshalDocument doc).getKey "triples" = (if doc.Triples = [] then none else some (.arr (doc.Triples.map marshalTriple)))) ∧
    ((marshalJSONNLP d).getKey "meta" = some (marshalMeta d.MetaData) ∧
     (marshalJSONNLP d).getKey "documents" = (if d.Documents = [] then none else some (.arr (d.Documents.map marshalDocument)))) ∧
    ((marshalTokenList token087).getKey "xpos_prob" =
       some (.float (.finite (87 / 100))) ∧
     (marshalTokenList tokenJohn).getKey "xpos_prob" = none) :=
  ⟨presence_marshalMeta m, presence_marshalTokenFeatures f, presence_marshalTokenList t, presence_marshalSentence s, presence_marshalClause c, presence_marshalDependency dp, presence_marshalDependencyTree dt, presence_marshalCoreferenceRepresentantive cr, presence_marshalCoreferenceReferents cf, presence_marshalCoreference co, presence_marshalScope sc, presence_marshalConstituentParse cp, presence_marshalExpression ex, presence_marshalParagraph pg, presence_marshalAttribute ab, presence_marshalEntity e, presence_marshalRelation r, presence_marshalTriple tr, presence_marshalDocument doc, presence_marshalJSONNLP d, presence_scenario_087⟩

/-- C3: on any Corpus whose optional fields are all zero-valued (in
particular the six v0.8 conflict-dropped token fields are zero, and every
float is the finite zero, so `hasNonFiniteFloat` is false), `GetJSON`
succeeds and `FromString` of its output into a fresh Corpus reproduces the
original field for field. -/
theorem decode_encode_roundtrip (C : JSONNLP) (hdrop : C.droppedZero)
    (hfin : C.hasNonFiniteFloat = false) :
    C.GetJSON = Except.ok (marshalJSONNLP C) ∧
    JSONNLP.FromString JSONNLP.zero (some (marshalJSONNLP C)) = C := by
  constructor
  · simp only [JSONNLP.hasNonFiniteFloat, Bool.or_eq_false_iff] at hfin
    simp [JSONNLP.GetJSON, hfin.1]
  · simpa [JSONNLP.FromString] using unmarshalJSONNLP_marshalJSONNLP C hdrop

/-- Witness for C3 on the spec's example scenario: conformance metadata,
one document of id 1 with one token of text "John", all optional fields
zero. -/
theorem decode_encode_roundtrip_witness :
    corpusC3.droppedZero ∧ corpusC3.hasNonFiniteFloat = false ∧
    corpusC3.GetJSON = Except.ok (marshalJSONNLP corpusC3) ∧
    JSONNLP.FromString JSONNLP.zero (some (marshalJSONNLP corpusC3)) = corpusC3 :=
  ⟨by simp [JSONNLP.droppedZero, TokenList.droppedZero, corpusC3, tokenJohn], rfl,
   (decode_encode_roundtrip corpusC3
     (by simp [JSONNLP.droppedZero, TokenList.droppedZero, corpusC3, tokenJohn]) rfl).1,
   (decode_encode_roundtrip corpusC3
     (by simp [JSONNLP.droppedZero, TokenList.droppedZero, corpusC3, tokenJohn]) rfl).2⟩

end GoJsonNLP
